import Mathlib

/-! nRF Desktop `hid_forward` module: shallow embedding and verified properties

Source: `applications/nrf_desktop/src/modules/hid_forward.c`.

The module statics become the fields of `State`.  Every handler is a pure
function from the state (and the values the environment hands in: report
bytes, return codes of the HID service client) to the new state, the list of
observable effects in program order, and the C return value.

Machine integers are `Nat`/`Int` with explicit reduction (`u8`, `u16`, `s8`,
`s16`).  Pointers used only as identities (`usb_id`, `channel_id`, connection
objects) are `Nat`, with `0` for `NULL`.
-/

namespace HidForward

/-! ## Machine integers -/

/-- Conversion to `u8_t`. -/
def u8 (n : Nat) : Nat := n % 256

/-- Conversion to `u16_t`. -/
def u16 (n : Nat) : Nat := n % 65536

/-- Conversion of an 8-bit pattern to `s8_t` (two's complement). -/
def s8 (n : Nat) : Int := if n % 256 < 128 then (n % 256 : Nat) else ((n % 256 : Nat) : Int) - 256

/-- Conversion of a 16-bit pattern to `s16_t` (two's complement). -/
def s16 (n : Nat) : Int :=
  if n % 65536 < 32768 then (n % 65536 : Nat) else ((n % 65536 : Nat) : Int) - 65536

/-- Conversion of a C `int` to `u8_t`. -/
def int_to_u8 (i : Int) : Nat := (i % 256).toNat

/-- Read of `data[i]` from a `const u8_t *` buffer. -/
def byte (data : List Nat) (i : Nat) : Nat := u8 (data.getD i 0)

/-- The Zephyr helper `sys_get_le16` on a two-byte buffer `{b0, b1}`:
`((u16_t)src[1] << 8) | src[0]`. -/
def sys_get_le16 (b0 b1 : Nat) : Nat := u16 ((u8 b1 <<< 8) ||| u8 b0)

/-! ## Types declared in headers outside the module -/

/-- Modelled from the spec: `enum config_status` of `config_channel.h`
(status code, enumerated: success, pending, fetch-request, write-error,
disconnected-error). -/
inductive config_status
  | SUCCESS
  | PENDING
  | FETCH
  | WRITE_ERROR
  | DISCONNECTED_ERROR
  deriving DecidableEq, Repr

/-- Modelled from the spec: `struct hid_mouse_event` of `hid_event.h`
(subscriber identity, button bitmap, signed wheel delta, signed X/Y deltas). -/
structure hid_mouse_event where
  subscriber : Nat
  button_bm : Nat
  wheel : Int
  dx : Int
  dy : Int
  deriving DecidableEq, Repr

/-- Modelled from the spec: `struct hid_keyboard_event` of `hid_event.h`
(subscriber identity, modifier bitmap, fixed-size array of key codes). -/
structure hid_keyboard_event where
  subscriber : Nat
  modifier_bm : Nat
  keys : List Nat
  deriving DecidableEq, Repr

/-- Modelled from the spec: `struct config_fetch_event` of `config_event.h`
(recipient, event id, payload, channel context). -/
structure config_fetch_event where
  id : Nat
  recipient : Nat
  channel_id : Nat
  dyndata : List Nat
  deriving DecidableEq, Repr

/-- Modelled from the spec: `struct config_forward_event` of `config_event.h`
(recipient, event id, status, payload). -/
structure config_forward_event where
  recipient : Nat
  id : Nat
  status : config_status
  dyndata : List Nat
  deriving DecidableEq, Repr

/-- Modelled from the spec: `struct config_channel_frame` of
`config_channel.h` (status code, recipient, event id, payload length,
payload).  `status` is `none` while the field of a local frame has not been
written. -/
structure config_channel_frame where
  status : Option config_status
  recipient : Nat
  event_id : Nat
  event_data_len : Nat
  event_data : List Nat
  deriving DecidableEq, Repr

/-- Report types of the HID service client (`hids_c.h`). -/
inductive report_type
  | INPUT
  | OUTPUT
  | FEATURE
  deriving DecidableEq, Repr

/-- Report descriptor entry of the HID service client
(`struct bt_gatt_hids_c_rep_info`): report id and report type. -/
structure rep_info where
  id : Nat
  type : report_type
  deriving DecidableEq, Repr

/-- Modelled from the spec: device slot `struct bt_gatt_hids_c` of `hids_c.h`
(opaque connection identifier, `0` for `NULL` while unassigned; readiness;
the reports found by discovery). -/
structure bt_gatt_hids_c where
  conn : Nat
  ready : Bool
  reps : List rep_info
  deriving DecidableEq, Repr

/-- Discovery result handed over by `ble_discovery_complete_event`
(`struct bt_gatt_dm`): the connection and the reports found on it. -/
structure bt_gatt_dm where
  conn : Nat
  reps : List rep_info
  deriving DecidableEq, Repr

/-- Peer states of `ble_event.h` that the module distinguishes. -/
inductive peer_state
  | DISCONNECTED
  | other
  deriving DecidableEq, Repr

/-- USB states of `usb_event.h` that the module distinguishes. -/
inductive usb_state
  | POWERED
  | DISCONNECTED
  | other
  deriving DecidableEq, Repr

/-- Return value of a notification callback of the GATT client. -/
inductive bt_gatt_iter
  | STOP
  | CONTINUE
  deriving DecidableEq, Repr

/-- Compile-time constants and external helpers the module uses but does not
define (`hid_report_desc.h`, `config_channel.h`, Kconfig). -/
structure Cfg where
  REPORT_ID_MOUSE : Nat
  REPORT_ID_KEYBOARD_KEYS : Nat
  REPORT_ID_USER_CONFIG : Nat
  REPORT_MOUSE_XY_MAX : Nat
  REPORT_SIZE_USER_CONFIG : Nat
  /-- The value of `ARRAY_SIZE(event->keys)` for `struct hid_keyboard_event`. -/
  KEYS_SIZE : Nat
  /-- Whether `__ASSERT_NO_MSG` is compiled in. -/
  CONFIG_ASSERT : Bool
  CONFIG_DESKTOP_CONFIG_CHANNEL_ENABLE : Bool
  /-- The call `config_channel_report_parse(buffer, length, &frame, false)`: the return
  value (negative on failure, else the position of the payload) and the
  frame written. -/
  config_channel_report_parse : List Nat → Nat → Int × config_channel_frame
  /-- The call `config_channel_report_fill(buffer, length, &frame, false)`: the return
  value (negative on failure) and the buffer written. -/
  config_channel_report_fill : Nat → config_channel_frame → Int × List Nat

/-! ## Observable effects -/

/-- Events submitted to the event manager. -/
inductive Event
  | hid_mouse (e : hid_mouse_event)
  | hid_keyboard (e : hid_keyboard_event)
  | config_forwarded (status : config_status)
  | config_fetch (e : config_fetch_event)
  deriving DecidableEq, Repr

/-- Log lines of the module. -/
inductive Log
  | event_override
  | cannot_subscribe (err : Int)
  | subscribed (id : Nat)
  | protocol_mode_updated
  | prep_error (err : Int)
  | cannot_assign_handles (err : Int)
  | failed_to_write_report (err : Nat)
  | could_not_set_report
  | fetch_not_ready
  | hid_device_disconnected
  | cannot_forward_peer_disconnected
  | feature_report_not_found
  | event_data_too_big
  | forwarding_fetch_request
  | writing_report_failed (err : Int)
  | read_already_pending
  | reading_report_failed (err : Int)
  deriving DecidableEq, Repr

/-- Callbacks the module registers with a GATT operation. -/
inductive Callback
  | hidc_read
  | hidc_write_cb
  | hidc_read_cfg
  deriving DecidableEq, Repr

/-- What a handler does to the outside, in program order. -/
inductive Effect
  | submit (e : Event)
  | log (m : Log)
  | hids_c_init (slot : Nat)
  | handles_assign (dm : bt_gatt_dm) (slot : Nat)
  | release (slot : Nat)
  | rep_subscribe (slot : Nat) (rep : rep_info) (cb : Callback)
  | rep_write (slot : Nat) (rep : rep_info) (cb : Callback) (report : List Nat) (length : Nat)
  | rep_read (slot : Nat) (rep : rep_info) (cb : Callback)
  | module_set_state_ready
  deriving DecidableEq, Repr

/-- The events submitted among a list of effects, in order. -/
def events : List Effect → List Event
  | [] => []
  | .submit e :: rest => e :: events rest
  | _ :: rest => events rest

/-- The keyboard events among a list of effects, in order. -/
def keyboard_events : List Effect → List hid_keyboard_event
  | [] => []
  | .submit (.hid_keyboard e) :: rest => e :: keyboard_events rest
  | _ :: rest => keyboard_events rest

/-- The mouse events among a list of effects, in order. -/
def mouse_events : List Effect → List hid_mouse_event
  | [] => []
  | .submit (.hid_mouse e) :: rest => e :: mouse_events rest
  | _ :: rest => mouse_events rest

/-- The feature-report reads among a list of effects, in order. -/
def reads : List Effect → List (Nat × rep_info × Callback)
  | [] => []
  | .rep_read slot rep cb :: rest => (slot, rep, cb) :: reads rest
  | _ :: rest => reads rest

/-- Ways a handler stops the system instead of returning. -/
inductive Fault
  /-- A call of `k_panic()`. -/
  | panic
  /-- A failed `__ASSERT_NO_MSG` with assertions compiled in. -/
  | assert
  /-- An array access outside its bounds. -/
  | undefined
  deriving DecidableEq, Repr

/-! ## Module state -/

/-- The statics of `hid_forward.c`. -/
structure State where
  hidc : List bt_gatt_hids_c
  usb_id : Nat
  usb_ready : Bool
  usb_busy : Bool
  forward_pending : Bool
  channel_id : Nat
  next_mouse_event : Option hid_mouse_event
  keyboard_event_list : List hid_keyboard_event
  initialized : Bool
  deriving DecidableEq, Repr

/-- A handler that returned: new state, effects in program order, C return
value. -/
structure Done (ρ : Type) where
  state : State
  out : List Effect
  ret : ρ
  deriving DecidableEq, Repr

/-- The state at program start: zero-initialised statics, `slots` device
slots, none assigned. -/
def State.initial (slots : Nat) : State :=
  { hidc := List.replicate slots { conn := 0, ready := false, reps := [] }
    usb_id := 0
    usb_ready := false
    usb_busy := false
    forward_pending := false
    channel_id := 0
    next_mouse_event := none
    keyboard_event_list := []
    initialized := false }

/-- The macro `__ASSERT_NO_MSG(cond)`. -/
def ASSERT (c : Cfg) (cond : Bool) : Except Fault Unit :=
  if c.CONFIG_ASSERT && !cond then .error .assert else .ok ()

/-! ## Report decoding and the relay core -/

/-- Lines 46-60 and 75-81 of `process_mouse_report`: the values written into
the event, whichever container is used. -/
def mouse_report_event (c : Cfg) (usb_id : Nat) (data : List Nat) : hid_mouse_event :=
  let button_bm := byte data 0
  let wheel := s8 (byte data 1)
  let x_buff0 := byte data 2
  let x_buff1 := u8 (byte data 3 &&& 0x0F)
  let y_buff0 := u8 ((byte data 3 >>> 4) ||| ((byte data 4 <<< 4) &&& 0xF0))
  let y_buff1 := u8 (byte data 4 >>> 4)
  let x := sys_get_le16 x_buff0 x_buff1
  let y := sys_get_le16 y_buff0 y_buff1
  let x := if x > c.REPORT_MOUSE_XY_MAX then u16 (x ||| 0xF000) else x
  let y := if y > c.REPORT_MOUSE_XY_MAX then u16 (y ||| 0xF000) else y
  { subscriber := usb_id
    button_bm := button_bm
    wheel := wheel
    dx := s16 x
    dy := s16 y }

/-- The function `process_mouse_report` (lines 62-91; the values written at
lines 75-81 are those of `mouse_report_event`). -/
def process_mouse_report (c : Cfg) (s : State) (data : List Nat) : Except Fault (Done Unit) := do
  let pre ← match s.next_mouse_event with
    | some _ => do
        ASSERT c s.usb_busy
        pure [Effect.log Log.event_override]
    | none => pure []
  let event := mouse_report_event c s.usb_id data
  if !s.usb_busy then
    pure ⟨{ s with usb_busy := true }, pre ++ [.submit (.hid_mouse event)], ()⟩
  else
    pure ⟨{ s with next_mouse_event := some event }, pre, ()⟩

/-- Lines 95-99 of `process_keyboard_report`: the event built from the report. -/
def keyboard_report_event (c : Cfg) (usb_id : Nat) (data : List Nat) : hid_keyboard_event :=
  { subscriber := usb_id
    modifier_bm := byte data 0
    keys := (List.range c.KEYS_SIZE).map fun i => byte data (2 + i) }

/-- The function `process_keyboard_report`; `k_malloc_ok` tells whether `k_malloc` returns
a node. -/
def process_keyboard_report (c : Cfg) (s : State) (data : List Nat) (k_malloc_ok : Bool) :
    Except Fault (Done Unit) :=
  let event := keyboard_report_event c s.usb_id data
  if !s.usb_busy then
    .ok ⟨{ s with usb_busy := true }, [.submit (.hid_keyboard event)], ()⟩
  else if !k_malloc_ok then
    .error .panic
  else
    .ok ⟨{ s with keyboard_event_list := s.keyboard_event_list ++ [event] }, [], ()⟩

/-- The callback `hidc_read`: the notification callback of a subscribed input report;
`data` is `none` for a `NULL` pointer. -/
def hidc_read (c : Cfg) (s : State) (rep : rep_info) (err : Nat) (data : Option (List Nat))
    (k_malloc_ok : Bool) : Except Fault (Done bt_gatt_iter) :=
  match data with
  | none => .ok ⟨s, [], .STOP⟩
  | some data =>
    if err ≠ 0 || !s.usb_ready then
      .ok ⟨s, [], .CONTINUE⟩
    else if rep.id = c.REPORT_ID_MOUSE then do
      let r ← process_mouse_report c s data
      pure ⟨r.state, r.out, .CONTINUE⟩
    else if rep.id = c.REPORT_ID_KEYBOARD_KEYS then do
      let r ← process_keyboard_report c s data k_malloc_ok
      pure ⟨r.state, r.out, .CONTINUE⟩
    else do
      ASSERT c false
      pure ⟨s, [], .CONTINUE⟩

/-! ## HID service client helpers (`hids_c.h`) -/

/-- Modelled from the spec: `bt_gatt_hids_c_assign_check`, whether the slot
is bound to a connection. -/
def bt_gatt_hids_c_assign_check (h : bt_gatt_hids_c) : Bool := h.conn ≠ 0

/-- Modelled from the spec: `bt_gatt_hids_c_ready_check`, whether the slot is
ready. -/
def bt_gatt_hids_c_ready_check (h : bt_gatt_hids_c) : Bool := h.ready

/-- Modelled from the spec: `bt_gatt_hids_c_rep_find`, the first report of the
slot with the given type and id. -/
def bt_gatt_hids_c_rep_find (h : bt_gatt_hids_c) (type : report_type) (id : Nat) :
    Option rep_info :=
  h.reps.find? fun r => r.type = type && r.id = id

/-- Modelled from the spec: `bt_gatt_hids_c_release`, the slot returns to
unassigned. -/
def bt_gatt_hids_c_release (_h : bt_gatt_hids_c) : bt_gatt_hids_c :=
  { conn := 0, ready := false, reps := [] }

/-- Modelled from the spec: the slot after a successful
`bt_gatt_hids_c_handles_assign`, bound to the discovered peripheral's
connection and reports. -/
def bt_gatt_hids_c_assigned (dm : bt_gatt_dm) : bt_gatt_hids_c :=
  { conn := dm.conn, ready := false, reps := dm.reps }

/-! ## Device lifecycle -/

/-- The loop of `hidc_ready` (lines 153-169) over the reports that
`bt_gatt_hids_c_rep_next` still yields; `subscribe_err` is the return value of
`bt_gatt_hids_c_rep_subscribe`. -/
def hidc_ready_loop (slot : Nat) (subscribe_err : rep_info → Int) : List rep_info → List Effect
  | [] => []
  | rep :: rest =>
    if rep.type = report_type.INPUT then
      let err := subscribe_err rep
      [ Effect.rep_subscribe slot rep Callback.hidc_read,
        Effect.log (if err ≠ 0 then Log.cannot_subscribe err else Log.subscribed rep.id) ]
    else
      hidc_ready_loop slot subscribe_err rest

/-- The callback `hidc_ready` for the slot `hidc[slot]`. -/
def hidc_ready (s : State) (slot : Nat) (subscribe_err : rep_info → Int) : Done Unit :=
  ⟨s, hidc_ready_loop slot subscribe_err ((s.hidc.getD slot ⟨0, false, []⟩).reps), ()⟩

/-- The function `init`. -/
def init (s : State) : Done Unit :=
  ⟨{ s with
      hidc := s.hidc.map fun _ => { conn := 0, ready := false, reps := [] }
      keyboard_event_list := [] },
   (List.range s.hidc.length).map Effect.hids_c_init, ()⟩

/-- The loop of `assign_handles` (lines 201-205): the value of `i` after it. -/
def assign_handles_loop : List bt_gatt_hids_c → Nat
  | [] => 0
  | h :: rest => if !bt_gatt_hids_c_assign_check h then 0 else assign_handles_loop rest + 1

/-- The function `assign_handles`; `err` is the return value of
`bt_gatt_hids_c_handles_assign`. -/
def assign_handles (c : Cfg) (s : State) (dm : bt_gatt_dm) (err : Int) :
    Except Fault (Done Int) := do
  let i := assign_handles_loop s.hidc
  ASSERT c (i < s.hidc.length)
  if i < s.hidc.length then
    let hidc := if err = 0 then s.hidc.set i (bt_gatt_hids_c_assigned dm) else s.hidc
    let log := if err ≠ 0 then [Effect.log (Log.cannot_assign_handles err)] else []
    pure ⟨{ s with hidc := hidc }, Effect.handles_assign dm i :: log, err⟩
  else
    throw Fault.undefined

/-- The loop of the `ble_peer_event` branch (lines 346-352), from slot index
`i` on. -/
def release_loop (id : Nat) : Nat → List bt_gatt_hids_c → List bt_gatt_hids_c × List Effect
  | _, [] => ([], [])
  | i, h :: rest =>
    let r := release_loop id (i + 1) rest
    if bt_gatt_hids_c_assign_check h && h.conn = id then
      (bt_gatt_hids_c_release h :: r.1,
        Effect.log Log.hid_device_disconnected :: Effect.release i :: r.2)
    else
      (h :: r.1, r.2)

/-! ## Config forwarding -/

/-- The function `notify_config_forwarded`. -/
def notify_config_forwarded (s : State) (status : config_status) : Done Unit :=
  ⟨{ s with forward_pending := (status = config_status.PENDING) },
   [Effect.submit (Event.config_forwarded status)], ()⟩

/-- The callback `hidc_write_cb`. -/
def hidc_write_cb (s : State) (err : Nat) : Done Unit :=
  if err ≠ 0 then
    let r := notify_config_forwarded s config_status.WRITE_ERROR
    ⟨r.state, Effect.log (Log.failed_to_write_report err) :: r.out, ()⟩
  else
    notify_config_forwarded s config_status.SUCCESS

/-- The callback `hidc_read_cfg`; the return value is the `u8_t` the C function
returns. -/
def hidc_read_cfg (c : Cfg) (s : State) (err : Nat) (data : List Nat) : Done Nat :=
  if err ≠ 0 then
    let r := notify_config_forwarded s config_status.WRITE_ERROR
    ⟨r.state, Effect.log (Log.failed_to_write_report err) :: r.out, 0⟩
  else
    let parsed := c.config_channel_report_parse data c.REPORT_SIZE_USER_CONFIG
    let pos := parsed.1
    let frame := parsed.2
    if pos < 0 then
      ⟨s, [Effect.log Log.could_not_set_report], int_to_u8 pos⟩
    else if frame.status ≠ some config_status.SUCCESS then
      ⟨{ s with forward_pending := false }, [Effect.log Log.fetch_not_ready], 0⟩
    else
      let event : config_fetch_event :=
        { id := frame.event_id
          recipient := frame.recipient
          channel_id := s.channel_id
          dyndata := (data.drop pos.toNat).take frame.event_data_len }
      ⟨s, [Effect.submit (Event.config_fetch event)], 0⟩

/-! ## The event handler -/

/-- Events the module subscribes to, with the fields the handler reads. -/
inductive event_header
  | hid_report_sent
  /-- A `module_state_event`; `ble_state_ready` is the value of
  `check_state(event, MODULE_ID(ble_state), MODULE_STATE_READY)`. -/
  | module_state (ble_state_ready : Bool)
  | ble_discovery_complete (dm : bt_gatt_dm)
  | hid_report_subscription (subscriber : Nat) (enabled : Bool)
  | ble_peer (state : peer_state) (id : Nat)
  | usb_state_event (state : usb_state) (id : Nat)
  | config_forward (event : config_forward_event)
  | config_forward_get (channel_id : Nat)
  | unhandled
  deriving DecidableEq, Repr

/-- Return values of the HID service client calls made by the event handler. -/
structure Env where
  handles_assign_err : Int
  rep_write_err : Int
  rep_read_err : Int
  deriving DecidableEq, Repr

/-- The `hid_report_sent_event` branch of `event_handler` (lines 281-302). -/
def on_hid_report_sent (s : State) : Done Bool :=
  match s.keyboard_event_list with
  | evt :: rest =>
    ⟨{ s with keyboard_event_list := rest }, [Effect.submit (Event.hid_keyboard evt)], false⟩
  | [] =>
    match s.next_mouse_event with
    | some e => ⟨{ s with next_mouse_event := none }, [Effect.submit (Event.hid_mouse e)], false⟩
    | none => ⟨{ s with usb_busy := false }, [], false⟩

/-- The `config_forward_event` branch of `event_handler` (lines 379-433). -/
def on_config_forward (c : Cfg) (s : State) (event : config_forward_event) (env : Env) :
    Except Fault (Done Bool) :=
  match s.hidc.head? with
  | none => throw Fault.undefined
  | some hidc0 =>
    if !bt_gatt_hids_c_ready_check hidc0 then
      let r := notify_config_forwarded s config_status.DISCONNECTED_ERROR
      pure ⟨r.state, Effect.log Log.cannot_forward_peer_disconnected :: r.out, false⟩
    else
      match bt_gatt_hids_c_rep_find hidc0 report_type.FEATURE c.REPORT_ID_USER_CONFIG with
      | none =>
        let r := notify_config_forwarded s config_status.WRITE_ERROR
        pure ⟨r.state, Effect.log Log.feature_report_not_found :: r.out, false⟩
      | some config_rep =>
        if event.dyndata.length > 255 then do
          ASSERT c false
          pure ⟨s, [Effect.log Log.event_data_too_big], false⟩
        else
          let fetch := decide (event.status = config_status.FETCH)
          let frame : config_channel_frame :=
            { status := if fetch then some config_status.FETCH else none
              recipient := event.recipient
              event_id := event.id
              event_data_len := event.dyndata.length
              event_data := event.dyndata }
          let pre := if fetch then [Effect.log Log.forwarding_fetch_request] else []
          let filled := c.config_channel_report_fill c.REPORT_SIZE_USER_CONFIG frame
          if filled.1 < 0 then
            pure ⟨s, pre ++ [Effect.log Log.could_not_set_report], true⟩
          else
            let write := Effect.rep_write 0 config_rep Callback.hidc_write_cb filled.2
              c.REPORT_SIZE_USER_CONFIG
            if env.rep_write_err ≠ 0 then
              let r := notify_config_forwarded s config_status.WRITE_ERROR
              pure ⟨r.state,
                pre ++ write :: Effect.log (Log.writing_report_failed env.rep_write_err) :: r.out,
                false⟩
            else
              pure ⟨s, pre ++ [write], false⟩

/-- The `config_forward_get_event` branch of `event_handler` (lines 435-473). -/
def on_config_forward_get (c : Cfg) (s : State) (channel_id : Nat) (env : Env) :
    Except Fault (Done Bool) :=
  if s.forward_pending then
    pure ⟨s, [Effect.log Log.read_already_pending], false⟩
  else
    match s.hidc.head? with
    | none => throw Fault.undefined
    | some hidc0 =>
      if !bt_gatt_hids_c_ready_check hidc0 then
        let r := notify_config_forwarded s config_status.DISCONNECTED_ERROR
        pure ⟨r.state, Effect.log Log.cannot_forward_peer_disconnected :: r.out, false⟩
      else
        match bt_gatt_hids_c_rep_find hidc0 report_type.FEATURE c.REPORT_ID_USER_CONFIG with
        | none =>
          let r := notify_config_forwarded s config_status.WRITE_ERROR
          pure ⟨r.state, Effect.log Log.feature_report_not_found :: r.out, false⟩
        | some config_rep =>
          let r := notify_config_forwarded s config_status.PENDING
          let s1 := { r.state with channel_id := channel_id }
          let read := Effect.rep_read 0 config_rep Callback.hidc_read_cfg
          if env.rep_read_err ≠ 0 then
            let r2 := notify_config_forwarded s1 config_status.WRITE_ERROR
            pure ⟨r2.state,
              r.out ++ read :: Effect.log (Log.reading_report_failed env.rep_read_err) :: r2.out,
              false⟩
          else
            pure ⟨s1, r.out ++ [read], false⟩

/-- The function `event_handler`. -/
def event_handler (c : Cfg) (s : State) (eh : event_header) (env : Env) :
    Except Fault (Done Bool) :=
  match eh with
  | .hid_report_sent => pure (on_hid_report_sent s)
  | .module_state ble_state_ready =>
    if ble_state_ready then do
      ASSERT c (!s.initialized)
      let r := init { s with initialized := true }
      pure ⟨r.state, r.out ++ [Effect.module_set_state_ready], false⟩
    else
      pure ⟨s, [], false⟩
  | .ble_discovery_complete dm => do
    let r ← assign_handles c s dm env.handles_assign_err
    pure ⟨r.state, r.out, false⟩
  | .hid_report_subscription subscriber enabled =>
    if subscriber = s.usb_id then
      pure ⟨{ s with usb_ready := enabled }, [], false⟩
    else
      pure ⟨s, [], false⟩
  | .ble_peer state id =>
    if state = peer_state.DISCONNECTED then
      let r := release_loop id 0 s.hidc
      pure ⟨{ s with hidc := r.1 }, r.2, false⟩
    else
      pure ⟨s, [], false⟩
  | .usb_state_event state id =>
    match state with
    | .POWERED => pure ⟨{ s with usb_id := id }, [], false⟩
    | .DISCONNECTED => pure ⟨{ s with usb_id := 0, usb_ready := false }, [], false⟩
    | .other => pure ⟨s, [], false⟩
  | .config_forward event =>
    if c.CONFIG_DESKTOP_CONFIG_CHANNEL_ENABLE then on_config_forward c s event env
    else do
      ASSERT c false
      pure ⟨s, [], false⟩
  | .config_forward_get channel_id =>
    if c.CONFIG_DESKTOP_CONFIG_CHANNEL_ENABLE then on_config_forward_get c s channel_id env
    else do
      ASSERT c false
      pure ⟨s, [], false⟩
  | .unhandled => do
    ASSERT c false
    pure ⟨s, [], false⟩

/-! ## Runs of the relay core -/

/-- Inputs of the relay core: a mouse report notification, a keyboard report
notification (with the outcome of the `k_malloc` it may need), and the
`hid_report_sent_event`. -/
inductive RelayInput
  | mouse (data : List Nat)
  | keyboard (data : List Nat) (k_malloc_ok : Bool)
  | report_sent
  deriving DecidableEq, Repr

/-- One input handled by the module: reports arrive through `hidc_read`
without error, the sent signal through `event_handler`. -/
def relay_step (c : Cfg) (s : State) : RelayInput → Except Fault (State × List Effect)
  | .mouse data => do
    let r ← hidc_read c s ⟨c.REPORT_ID_MOUSE, report_type.INPUT⟩ 0 (some data) true
    pure (r.state, r.out)
  | .keyboard data k_malloc_ok => do
    let r ← hidc_read c s ⟨c.REPORT_ID_KEYBOARD_KEYS, report_type.INPUT⟩ 0 (some data) k_malloc_ok
    pure (r.state, r.out)
  | .report_sent => do
    let r ← event_handler c s event_header.hid_report_sent ⟨0, 0, 0⟩
    pure (r.state, r.out)

/-- A sequence of inputs handled one after the other; the effects are
collected in order. -/
def relay_run (c : Cfg) : State → List RelayInput → Except Fault (State × List Effect)
  | s, [] => pure (s, [])
  | s, i :: rest => do
    let r1 ← relay_step c s i
    let r2 ← relay_run c r1.1 rest
    pure (r2.1, r1.2 ++ r2.2)

/-- The keyboard reports among the inputs, in arrival order, each decoded as
the spec words it: modifier bitmap from byte 0, one key per key slot from the
consecutive bytes starting at offset 2. -/
def received_keyboard (c : Cfg) (usb_id : Nat) : List RelayInput → List hid_keyboard_event
  | [] => []
  | .keyboard data _ :: rest =>
    { subscriber := usb_id
      modifier_bm := byte data 0
      keys := (List.range c.KEYS_SIZE).map fun k => byte data (2 + k) }
      :: received_keyboard c usb_id rest
  | _ :: rest => received_keyboard c usb_id rest

/-- Every `k_malloc` of the run returns a node. -/
def allocations_succeed : List RelayInput → Bool
  | [] => true
  | .keyboard _ ok :: rest => ok && allocations_succeed rest
  | _ :: rest => allocations_succeed rest

/-- A run of `process_mouse_report` over consecutive mouse reports, with no
other handler in between; the effects are collected in order. -/
def process_mouse_reports (c : Cfg) : State → List (List Nat) → Except Fault (State × List Effect)
  | s, [] => pure (s, [])
  | s, data :: rest => do
    let r1 ← process_mouse_report c s data
    let r2 ← process_mouse_reports c r1.state rest
    pure (r2.1, r1.out ++ r2.2)

/-- The number of report-sent signals among the inputs. -/
def sent_signals : List RelayInput → Nat
  | [] => 0
  | .report_sent :: rest => sent_signals rest + 1
  | _ :: rest => sent_signals rest

/-- Whether the input may arrive now: a report-sent signal needs an emitted
event that is not yet acknowledged, a report may always arrive. -/
def ack_expected (emitted sent : Nat) : RelayInput → Bool
  | .report_sent => decide (sent < emitted)
  | _ => true

/-- The run from a state after one step: the state and the effects of a step
that returned. -/
def after_step (c : Cfg) (s : State) (i : RelayInput) : Option (State × List Effect) :=
  match relay_step c s i with
  | .error _ => none
  | .ok r => some r

/-- The pacing assumption on the USB sink: every report-sent signal of the run
arrives while an emitted event is not yet acknowledged.  `emitted` and `sent`
count the events emitted and the signals delivered before the inputs. -/
def acks_follow_emissions (c : Cfg) : State → Nat → Nat → List RelayInput → Bool
  | _, _, _, [] => true
  | s, emitted, sent, i :: rest =>
    ack_expected emitted sent i &&
      ((after_step c s i).map fun r =>
        acks_follow_emissions c r.1 (emitted + (events r.2).length)
          (sent + sent_signals [i]) rest).getD true

/-- No pending work while the USB sink is idle. -/
def idle_clean (s : State) : Prop :=
  s.usb_busy = false → s.next_mouse_event = none ∧ s.keyboard_event_list = []

/-- Sign extension of a 12-bit two's-complement value, as the spec words it. -/
def sext12 (v : Nat) : Int := if v < 2048 then (v : Int) else (v : Int) - 4096

/-! ## A concrete configuration for evaluating the handlers -/

/-- Status codes on the wire, in the order the spec enumerates them. -/
def sample_status_code : config_status → Nat
  | .SUCCESS => 0
  | .PENDING => 1
  | .FETCH => 2
  | .WRITE_ERROR => 3
  | .DISCONNECTED_ERROR => 4

/-- Inverse of `sample_status_code`. -/
def sample_status_decode : Nat → Option config_status
  | 0 => some .SUCCESS
  | 1 => some .PENDING
  | 2 => some .FETCH
  | 3 => some .WRITE_ERROR
  | 4 => some .DISCONNECTED_ERROR
  | _ => none

/-- Modelled from the spec: a frame decoder for the wire format of section 6
(byte 0 = status code, next bytes = recipient id, event id, payload length,
then payload bytes), one byte per header field.  It fails on a buffer shorter
than the header or a payload length that overruns the buffer, and returns the
number of header bytes consumed. -/
def sample_report_parse (buffer : List Nat) (length : Nat) : Int × config_channel_frame :=
  let frame : config_channel_frame :=
    { status := sample_status_decode (byte buffer 0)
      recipient := byte buffer 1
      event_id := byte buffer 2
      event_data_len := byte buffer 3
      event_data := [] }
  if length < 4 || buffer.length < length || frame.status.isNone
      || length < 4 + frame.event_data_len then
    (-1, frame)
  else
    (4, frame)

/-- Modelled from the spec: a frame encoder for the same wire format; it fails
if the payload length exceeds the buffer size minus the header size.  A status
field never written is encoded as 0. -/
def sample_report_fill (length : Nat) (frame : config_channel_frame) : Int × List Nat :=
  if length < 4 + frame.event_data_len then
    (-1, [])
  else
    let status := match frame.status with
      | some st => sample_status_code st
      | none => 0
    let used := [status, u8 frame.recipient, u8 frame.event_id, u8 frame.event_data_len]
      ++ frame.event_data.take frame.event_data_len
    (4 + (frame.event_data_len : Int), used ++ List.replicate (length - used.length) 0)

/-- A configuration with the sample codec, assertions compiled in and the
config channel enabled. -/
def sample_cfg : Cfg :=
  { REPORT_ID_MOUSE := 1
    REPORT_ID_KEYBOARD_KEYS := 2
    REPORT_ID_USER_CONFIG := 5
    REPORT_MOUSE_XY_MAX := 0x07FF
    REPORT_SIZE_USER_CONFIG := 29
    KEYS_SIZE := 6
    CONFIG_ASSERT := true
    CONFIG_DESKTOP_CONFIG_CHANNEL_ENABLE := true
    config_channel_report_parse := sample_report_parse
    config_channel_report_fill := sample_report_fill }

/-- The state after start-up with USB ready for subscriber 7 and a peripheral
with a mouse input report and the config feature report ready in slot 0. -/
def sample_state : State :=
  { State.initial 2 with
    hidc := [ { conn := 3, ready := true,
                reps := [⟨1, report_type.INPUT⟩, ⟨5, report_type.FEATURE⟩] },
              { conn := 0, ready := false, reps := [] } ]
    usb_id := 7
    usb_ready := true
    initialized := true }

/-- A feature report of the sample wire format whose status is pending (the
peripheral has not produced the data yet). -/
def not_ready_report : List Nat := [1, 9, 3, 0] ++ List.replicate 25 0

/-- A feature report of the sample wire format with status success, recipient
9, event id 3 and the two payload bytes `0xAA`, `0xBB`. -/
def success_report : List Nat := [0, 9, 3, 2, 0xAA, 0xBB] ++ List.replicate 23 0

/-! ## Projections of effect lists and helpers for the later properties -/

/-- The feature-report writes among a list of effects, in order: slot, report,
callback, buffer and length. -/
def writes : List Effect → List (Nat × rep_info × Callback × List Nat × Nat)
  | [] => []
  | .rep_write slot rep cb report length :: rest => (slot, rep, cb, report, length) :: writes rest
  | _ :: rest => writes rest

/-- The subscriptions requested among a list of effects, in order. -/
def subscriptions : List Effect → List (Nat × rep_info × Callback)
  | [] => []
  | .rep_subscribe slot rep cb :: rest => (slot, rep, cb) :: subscriptions rest
  | _ :: rest => subscriptions rest

/-- The slots passed to `bt_gatt_hids_c_handles_assign` among a list of
effects, in order. -/
def assigned_slots : List Effect → List Nat
  | [] => []
  | .handles_assign _ slot :: rest => slot :: assigned_slots rest
  | _ :: rest => assigned_slots rest

/-- Lines 406-417 of the `config_forward_event` branch: the local frame after
the assignments; `status` is written only for a fetch request. -/
def forward_frame (event : config_forward_event) : config_channel_frame :=
  { status := if decide (event.status = config_status.FETCH) then some config_status.FETCH
      else none
    recipient := event.recipient
    event_id := event.id
    event_data_len := event.dyndata.length
    event_data := event.dyndata }

/-- The sample configuration with assertions compiled out. -/
def sample_cfg_release : Cfg := { sample_cfg with CONFIG_ASSERT := false }

/-- A config forward request with a payload of 256 bytes. -/
def oversized_request : config_forward_event :=
  { recipient := 9, id := 3, status := config_status.SUCCESS, dyndata := List.replicate 256 0 }

/-- A config forward request that is not a fetch, with a two-byte payload. -/
def set_request : config_forward_event :=
  { recipient := 9, id := 3, status := config_status.SUCCESS, dyndata := [0xAA, 0xBB] }

/-- The sample state with an event in flight to USB and a mouse event
pending. -/
def busy_state : State :=
  { sample_state with usb_busy := true, next_mouse_event := some ⟨7, 1, 0, 2, 3⟩ }

/-- The events a state holds back for the USB sink, as the effects that emit
them: the keyboard queue in queue order, then the pending mouse event. -/
def drain_effects (s : State) : List Effect :=
  s.keyboard_event_list.map (fun e => Effect.submit (Event.hid_keyboard e))
    ++ s.next_mouse_event.toList.map (fun e => Effect.submit (Event.hid_mouse e))

/-- The sample state with an event in flight, two keyboard events queued and
a mouse event pending. -/
def loaded_state : State :=
  { sample_state with usb_busy := true, next_mouse_event := some ⟨7, 1, 0, 2, 3⟩, keyboard_event_list := [⟨7, 2, [4, 0, 0, 0, 0, 0]⟩, ⟨7, 0, [0, 0, 0, 0, 0, 0]⟩] }

/-! # Verified properties -/

/-! ## Auxiliary facts about effect lists -/

theorem keyboard_events_append (a b : List Effect) :
    keyboard_events (a ++ b) = keyboard_events a ++ keyboard_events b := by
  induction a with
  | nil => rfl
  | cons x xs ih =>
    cases x with
    | submit e => cases e <;> simp [keyboard_events, ih]
    | _ => simp [keyboard_events, ih]

theorem events_append (a b : List Effect) : events (a ++ b) = events a ++ events b := by
  induction a with
  | nil => rfl
  | cons x xs ih => cases x <;> simp [events, ih]


theorem relay_step_mouse (c : Cfg) (s : State) (data : List Nat)
    (hr : s.usb_ready = true) (hi : idle_clean s) :
    relay_step c s (.mouse data) =
      if s.usb_busy then
        .ok ({ s with next_mouse_event := some (mouse_report_event c s.usb_id data) },
          if s.next_mouse_event.isSome then [Effect.log Log.event_override] else [])
      else
        .ok ({ s with usb_busy := true },
          [Effect.submit (Event.hid_mouse (mouse_report_event c s.usb_id data))]) := by
  cases hb : s.usb_busy
  · obtain ⟨h1, _⟩ := hi hb
    simp [relay_step, hidc_read, hr, process_mouse_report, h1, hb, bind, Except.bind, pure,
      Except.pure]
  · cases hm : s.next_mouse_event <;>
      simp [relay_step, hidc_read, hr, process_mouse_report, hm, hb, bind, Except.bind, pure,
        Except.pure, ASSERT]

theorem relay_step_keyboard (c : Cfg) (s : State) (data : List Nat) (ok : Bool)
    (hne : c.REPORT_ID_MOUSE ≠ c.REPORT_ID_KEYBOARD_KEYS) (hr : s.usb_ready = true) :
    relay_step c s (.keyboard data ok) =
      if s.usb_busy then
        if ok then
          .ok ({ s with keyboard_event_list :=
                  s.keyboard_event_list ++ [keyboard_report_event c s.usb_id data] }, [])
        else .error Fault.panic
      else
        .ok ({ s with usb_busy := true },
          [Effect.submit (Event.hid_keyboard (keyboard_report_event c s.usb_id data))]) := by
  have hne' : ¬ c.REPORT_ID_KEYBOARD_KEYS = c.REPORT_ID_MOUSE := fun h => hne h.symm
  cases hb : s.usb_busy <;> cases ok <;>
    simp [relay_step, hidc_read, hr, process_keyboard_report, hb, bind, Except.bind, pure,
      Except.pure, hne']

theorem relay_step_report_sent (c : Cfg) (s : State) :
    relay_step c s .report_sent = .ok ((on_hid_report_sent s).state, (on_hid_report_sent s).out) := by
  simp [relay_step, event_handler, bind, Except.bind, pure, Except.pure]

theorem relay_step_keyboard_order (c : Cfg) (hne : c.REPORT_ID_MOUSE ≠ c.REPORT_ID_KEYBOARD_KEYS)
    (s : State) (i : RelayInput) (hr : s.usb_ready = true) (hi : idle_clean s)
    (hok : allocations_succeed [i] = true) :
    ∃ s1 o1, relay_step c s i = .ok (s1, o1) ∧ s1.usb_ready = true ∧ idle_clean s1 ∧
      s1.usb_id = s.usb_id ∧
      keyboard_events o1 ++ s1.keyboard_event_list =
        s.keyboard_event_list ++ received_keyboard c s.usb_id [i] := by
  cases i with
  | mouse data =>
    rw [relay_step_mouse c s data hr hi]
    cases hb : s.usb_busy
    · obtain ⟨_, h2⟩ := hi hb
      refine ⟨_, _, rfl, hr, ?_, rfl, ?_⟩
      · intro h; simp at h
      · simp [keyboard_events, received_keyboard, h2]
    · refine ⟨_, _, rfl, hr, ?_, rfl, ?_⟩
      · intro h; simp [hb] at h
      · cases s.next_mouse_event <;> simp [keyboard_events, received_keyboard]
  | keyboard data ok =>
    have hok' : ok = true := by simpa [allocations_succeed] using hok
    subst hok'
    rw [relay_step_keyboard c s data true hne hr]
    cases hb : s.usb_busy
    · obtain ⟨_, h2⟩ := hi hb
      refine ⟨_, _, rfl, hr, ?_, rfl, ?_⟩
      · intro h; simp at h
      · simp [keyboard_events, received_keyboard, h2, keyboard_report_event]
    · refine ⟨_, _, rfl, hr, ?_, rfl, ?_⟩
      · intro h; simp [hb] at h
      · simp [keyboard_events, received_keyboard, keyboard_report_event]
  | report_sent =>
    rw [relay_step_report_sent]
    refine ⟨_, _, rfl, ?_, ?_, ?_, ?_⟩
    · unfold on_hid_report_sent; split
      · exact hr
      · split <;> exact hr
    · unfold on_hid_report_sent; split
      · rename_i evt rest hq
        intro h
        have := hi h
        simp [hq] at this
      · rename_i hq
        split
        · rename_i e hm
          intro h
          have := hi h
          simp [hm] at this
        · rename_i hm
          intro _
          exact ⟨hm, hq⟩
    · unfold on_hid_report_sent; split
      · rfl
      · split <;> rfl
    · unfold on_hid_report_sent; split
      · rename_i evt rest hq
        simp [keyboard_events, received_keyboard, hq]
      · rename_i hq
        split <;> simp [keyboard_events, received_keyboard, hq]

theorem relay_run_keyboard_order (c : Cfg) (hne : c.REPORT_ID_MOUSE ≠ c.REPORT_ID_KEYBOARD_KEYS)
    (ins : List RelayInput) :
    ∀ s : State, s.usb_ready = true → idle_clean s → allocations_succeed ins = true →
      ∃ s1 out, relay_run c s ins = .ok (s1, out) ∧
        keyboard_events out ++ s1.keyboard_event_list =
          s.keyboard_event_list ++ received_keyboard c s.usb_id ins := by
  induction ins with
  | nil =>
    intro s _ _ _
    exact ⟨s, [], rfl, by simp [keyboard_events, received_keyboard]⟩
  | cons i rest ih =>
    intro s hr hi hok
    have hok1 : allocations_succeed [i] = true := by
      cases i <;> simp_all [allocations_succeed]
    have hok2 : allocations_succeed rest = true := by
      cases i <;> simp_all [allocations_succeed]
    obtain ⟨s1, o1, h1, hr1, hi1, hid1, hk1⟩ := relay_step_keyboard_order c hne s i hr hi hok1
    obtain ⟨s2, o2, h2, hk2⟩ := ih s1 hr1 hi1 hok2
    refine ⟨s2, o1 ++ o2, ?_, ?_⟩
    · simp [relay_run, h1, h2, bind, Except.bind, pure, Except.pure]
    · have hsplit : received_keyboard c s.usb_id (i :: rest) =
          received_keyboard c s.usb_id [i] ++ received_keyboard c s.usb_id rest := by
        cases i <;> simp [received_keyboard]
      rw [keyboard_events_append, List.append_assoc, hk2, hid1, ← List.append_assoc, hk1, hsplit,
        List.append_assoc]

/-- C1. Keyboard order and content are preserved: for every finite sequence of
mouse reports, keyboard reports and report-sent signals handled from the
initial state with USB ready, with every queue-node allocation succeeding, the
run returns, and the keyboard events emitted followed by the events still in
the keyboard queue are exactly the keyboard reports received, in arrival
order, each decoded as modifier bitmap = byte 0 and keys = the consecutive
bytes from offset 2, one per key slot. -/
theorem keyboard_order_preserved (c : Cfg)
    (hne : c.REPORT_ID_MOUSE ≠ c.REPORT_ID_KEYBOARD_KEYS) (slots usb_id : Nat)
    (ins : List RelayInput) (halloc : allocations_succeed ins = true) :
    ∃ s out,
      relay_run c { State.initial slots with usb_ready := true, usb_id := usb_id } ins
        = .ok (s, out) ∧
      keyboard_events out ++ s.keyboard_event_list = received_keyboard c usb_id ins := by
  obtain ⟨s, out, h, hk⟩ := relay_run_keyboard_order c hne ins
    { State.initial slots with usb_ready := true, usb_id := usb_id } rfl
    (by intro _; exact ⟨rfl, rfl⟩) halloc
  exact ⟨s, out, h, by simpa [State.initial] using hk⟩

/-- Witness for C1: the sample configuration, a run that interleaves mouse
reports, queued keyboard reports and sent signals. -/
theorem keyboard_order_preserved_witness :
    sample_cfg.REPORT_ID_MOUSE ≠ sample_cfg.REPORT_ID_KEYBOARD_KEYS ∧
    allocations_succeed
      [.mouse [1, 5, 0x10, 2, 0x30], .keyboard [2, 0, 4, 5, 6, 7, 8, 9] true,
       .mouse [0, 0, 1, 0, 0], .keyboard [0, 0, 4, 0, 0, 0, 0, 0] true, .report_sent,
       .keyboard [0, 0, 0, 0, 0, 0, 0, 0] true, .report_sent] = true ∧
    ∃ s out,
      relay_run sample_cfg { State.initial 2 with usb_ready := true, usb_id := 7 }
        [.mouse [1, 5, 0x10, 2, 0x30], .keyboard [2, 0, 4, 5, 6, 7, 8, 9] true,
         .mouse [0, 0, 1, 0, 0], .keyboard [0, 0, 4, 0, 0, 0, 0, 0] true, .report_sent,
         .keyboard [0, 0, 0, 0, 0, 0, 0, 0] true, .report_sent] = .ok (s, out) ∧
      keyboard_events out ++ s.keyboard_event_list =
        received_keyboard sample_cfg 7
          [.mouse [1, 5, 0x10, 2, 0x30], .keyboard [2, 0, 4, 5, 6, 7, 8, 9] true,
           .mouse [0, 0, 1, 0, 0], .keyboard [0, 0, 4, 0, 0, 0, 0, 0] true, .report_sent,
           .keyboard [0, 0, 0, 0, 0, 0, 0, 0] true, .report_sent] :=
  ⟨by decide, by decide, keyboard_order_preserved sample_cfg (by decide) 2 7 _ (by decide)⟩

/-! ## Bitwise operations as arithmetic -/

theorem or_low_bits (hi lo n : Nat) (h : lo < 2 ^ n) : (hi <<< n) ||| lo = hi * 2 ^ n + lo := by
  rw [Nat.shiftLeft_eq, Nat.mul_comm, ← Nat.mul_add_lt_is_or h]

theorem sys_get_le16_eq (b0 b1 : Nat) (h0 : b0 < 256) (h1 : b1 < 256) :
    sys_get_le16 b0 b1 = b0 + 256 * b1 := by
  unfold sys_get_le16 u16 u8
  rw [Nat.mod_eq_of_lt h0, Nat.mod_eq_of_lt h1, or_low_bits b1 b0 8 (by simpa using h0)]
  omega

theorem and_low_nibble (b : Nat) : b &&& 0x0F = b % 16 :=
  Nat.and_pow_two_sub_one_eq_mod b 4

theorem shift_high_nibble (b : Nat) : b >>> 4 = b / 16 := by
  rw [Nat.shiftRight_eq_div_pow]

theorem shifted_and_high_nibble (b : Nat) : (b <<< 4) &&& 0xF0 = (b % 16) <<< 4 := by
  apply Nat.eq_of_testBit_eq
  intro i
  simp only [Nat.testBit_and, Nat.testBit_shiftLeft]
  rcases Nat.lt_or_ge i 4 with h | h
  · have : ¬ i ≥ 4 := by omega
    simp [this]
  · have h240 : Nat.testBit 0xF0 i = decide (i < 8) := by
      rcases Nat.lt_or_ge i 8 with h8 | h8
      · have : i = 4 ∨ i = 5 ∨ i = 6 ∨ i = 7 := by omega
        rcases this with rfl | rfl | rfl | rfl <;> decide
      · have : (0xF0 : Nat) < 2 ^ i :=
          lt_of_lt_of_le (by decide : (0xF0 : Nat) < 2 ^ 8) (Nat.pow_le_pow_right (by decide) h8)
        simp [Nat.testBit_lt_two_pow this, Nat.not_lt.mpr h8]
    have hmod : Nat.testBit (b % 16) (i - 4) = (decide (i - 4 < 4) && Nat.testBit b (i - 4)) :=
      Nat.testBit_mod_two_pow b 4 (i - 4)
    rw [h240, hmod]
    have : (i - 4 < 4) ↔ (i < 8) := by omega
    simp [h, this, Bool.and_comm]

theorem or_sign_bits (x : Nat) (h : x < 4096) : x ||| 0xF000 = x + 0xF000 := by
  have := or_low_bits 15 x 12 (by simpa using h)
  rw [Nat.or_comm]
  simpa [Nat.add_comm] using this

/-- Lines 55-60 and 80-81 of `process_mouse_report` on a 12-bit value: the
test against `0x07FF`, the OR with `0xF000` and the conversion to `s16_t`. -/
theorem sign_extend_12 (x : Nat) (h : x < 4096) :
    s16 (if x > 0x07FF then u16 (x ||| 0xF000) else x) = sext12 x := by
  unfold sext12 s16
  split
  · rw [or_sign_bits x h]; unfold u16; split <;> split <;> omega
  · split <;> split <;> omega

theorem sext12_range (x : Nat) (h : x < 4096) : -2048 ≤ sext12 x ∧ sext12 x ≤ 2047 := by
  unfold sext12; split <;> omega

/-- C5. Mouse report decoding is 12-bit two's-complement sign extension: with
`REPORT_MOUSE_XY_MAX = 0x07FF`, for every 5-byte report the decoded event has
`button_bm = d[0]`, `wheel = d[1]` read as a signed 8-bit value,
`dx = sext12 (d[2] + 256 * (d[3] mod 16))` and
`dy = sext12 (d[3] div 16 + 16 * d[4])`, so `dx` and `dy` lie in
`[-2048, 2047]`. -/
theorem mouse_decode_sign_extension (c : Cfg) (hmax : c.REPORT_MOUSE_XY_MAX = 0x07FF)
    (usb_id d0 d1 d2 d3 d4 : Nat)
    (h0 : d0 < 256) (h1 : d1 < 256) (h2 : d2 < 256) (h3 : d3 < 256) (h4 : d4 < 256) :
    (mouse_report_event c usb_id [d0, d1, d2, d3, d4]).button_bm = d0 ∧
    (mouse_report_event c usb_id [d0, d1, d2, d3, d4]).wheel
      = (if d1 < 128 then (d1 : Int) else (d1 : Int) - 256) ∧
    (mouse_report_event c usb_id [d0, d1, d2, d3, d4]).dx = sext12 (d2 + 256 * (d3 % 16)) ∧
    (mouse_report_event c usb_id [d0, d1, d2, d3, d4]).dy = sext12 (d3 / 16 + 16 * d4) ∧
    -2048 ≤ (mouse_report_event c usb_id [d0, d1, d2, d3, d4]).dx ∧
    (mouse_report_event c usb_id [d0, d1, d2, d3, d4]).dx ≤ 2047 ∧
    -2048 ≤ (mouse_report_event c usb_id [d0, d1, d2, d3, d4]).dy ∧
    (mouse_report_event c usb_id [d0, d1, d2, d3, d4]).dy ≤ 2047 := by
  have b0 : byte [d0, d1, d2, d3, d4] 0 = d0 := by simp [byte, u8, Nat.mod_eq_of_lt h0]
  have b1 : byte [d0, d1, d2, d3, d4] 1 = d1 := by simp [byte, u8, Nat.mod_eq_of_lt h1]
  have b2 : byte [d0, d1, d2, d3, d4] 2 = d2 := by simp [byte, u8, Nat.mod_eq_of_lt h2]
  have b3 : byte [d0, d1, d2, d3, d4] 3 = d3 := by simp [byte, u8, Nat.mod_eq_of_lt h3]
  have b4 : byte [d0, d1, d2, d3, d4] 4 = d4 := by simp [byte, u8, Nat.mod_eq_of_lt h4]
  have hx1 : u8 (d3 &&& 0x0F) = d3 % 16 := by
    rw [and_low_nibble]; unfold u8; omega
  have hy0 : u8 ((d3 >>> 4) ||| ((d4 <<< 4) &&& 0xF0)) = d3 / 16 + 16 * (d4 % 16) := by
    rw [shift_high_nibble, shifted_and_high_nibble, Nat.or_comm,
      or_low_bits (d4 % 16) (d3 / 16) 4 (by simp; omega)]
    unfold u8; omega
  have hy1 : u8 (d4 >>> 4) = d4 / 16 := by
    rw [shift_high_nibble]; unfold u8; omega
  have hx : sys_get_le16 d2 (d3 % 16) = d2 + 256 * (d3 % 16) :=
    sys_get_le16_eq _ _ h2 (by omega)
  have hy : sys_get_le16 (d3 / 16 + 16 * (d4 % 16)) (d4 / 16) = d3 / 16 + 16 * d4 := by
    rw [sys_get_le16_eq _ _ (by omega) (by omega)]; omega
  simp only [mouse_report_event, b0, b1, b2, b3, b4, hx1, hy0, hy1, hx, hy, hmax]
  have hxr : d2 + 256 * (d3 % 16) < 4096 := by omega
  have hyr : d3 / 16 + 16 * d4 < 4096 := by omega
  rw [sign_extend_12 _ hxr, sign_extend_12 _ hyr]
  refine ⟨trivial, ?_, rfl, rfl, (sext12_range _ hxr).1, (sext12_range _ hxr).2,
    (sext12_range _ hyr).1, (sext12_range _ hyr).2⟩
  unfold s8; split <;> split <;> omega

/-- Witness for C5: a report with negative X and Y and a negative wheel. -/
theorem mouse_decode_sign_extension_witness :
    sample_cfg.REPORT_MOUSE_XY_MAX = 0x07FF ∧
    (1 < 256 ∧ 0xFB < 256 ∧ 0x34 < 256 ∧ 0x2F < 256 ∧ 0x81 < 256) ∧
    (mouse_report_event sample_cfg 7 [1, 0xFB, 0x34, 0x2F, 0x81]).button_bm = 1 ∧
    (mouse_report_event sample_cfg 7 [1, 0xFB, 0x34, 0x2F, 0x81]).wheel
      = (if 0xFB < 128 then ((0xFB : Nat) : Int) else ((0xFB : Nat) : Int) - 256) ∧
    (mouse_report_event sample_cfg 7 [1, 0xFB, 0x34, 0x2F, 0x81]).dx
      = sext12 (0x34 + 256 * (0x2F % 16)) ∧
    (mouse_report_event sample_cfg 7 [1, 0xFB, 0x34, 0x2F, 0x81]).dy
      = sext12 (0x2F / 16 + 16 * 0x81) ∧
    -2048 ≤ (mouse_report_event sample_cfg 7 [1, 0xFB, 0x34, 0x2F, 0x81]).dx ∧
    (mouse_report_event sample_cfg 7 [1, 0xFB, 0x34, 0x2F, 0x81]).dx ≤ 2047 ∧
    -2048 ≤ (mouse_report_event sample_cfg 7 [1, 0xFB, 0x34, 0x2F, 0x81]).dy ∧
    (mouse_report_event sample_cfg 7 [1, 0xFB, 0x34, 0x2F, 0x81]).dy ≤ 2047 :=
  ⟨rfl, by decide,
    mouse_decode_sign_extension sample_cfg rfl 7 1 0xFB 0x34 0x2F 0x81
      (by decide) (by decide) (by decide) (by decide) (by decide)⟩

/-! ## Mouse coalescing -/

theorem process_mouse_report_busy (c : Cfg) (s : State) (data : List Nat)
    (hb : s.usb_busy = true) :
    process_mouse_report c s data =
      .ok ⟨{ s with next_mouse_event := some (mouse_report_event c s.usb_id data) },
        if s.next_mouse_event.isSome then [Effect.log Log.event_override] else [], ()⟩ := by
  cases hm : s.next_mouse_event <;>
    simp [process_mouse_report, hm, hb, bind, Except.bind, pure, Except.pure, ASSERT]

theorem process_mouse_reports_busy (c : Cfg) (reports : List (List Nat)) :
    ∀ (s : State) (hne : reports ≠ []), s.usb_busy = true →
      ∃ s1 out, process_mouse_reports c s reports = .ok (s1, out) ∧ events out = [] ∧
        s1 = { s with
          next_mouse_event := some (mouse_report_event c s.usb_id (reports.getLast hne)) } := by
  induction reports with
  | nil => intro _ hne; exact absurd rfl hne
  | cons data rest ih =>
    intro s _ hb
    have hstep := process_mouse_report_busy c s data hb
    have hev : events (if s.next_mouse_event.isSome then [Effect.log Log.event_override] else [])
        = [] := by
      split <;> rfl
    cases rest with
    | nil =>
      refine ⟨_, (if s.next_mouse_event.isSome then [Effect.log Log.event_override] else [])
        ++ [], ?_, ?_, rfl⟩
      · simp only [process_mouse_reports, hstep, bind, Except.bind, pure, Except.pure,
          List.getLast_singleton]
      · simpa [events_append] using hev
    | cons d2 rest2 =>
      obtain ⟨s2, o2, h2, he2, hs2⟩ :=
        ih { s with next_mouse_event := some (mouse_report_event c s.usb_id data) }
          (by simp) hb
      refine ⟨s2, (if s.next_mouse_event.isSome then [Effect.log Log.event_override] else [])
        ++ o2, ?_, ?_, ?_⟩
      · rw [process_mouse_reports]
        simp only [hstep, bind, Except.bind, pure, Except.pure, h2]
      · simp [events_append, hev, he2]
      · rw [hs2]; simp

/-- C2. Mouse coalescing is last-wins: from every state with `usb_busy` true,
a non-empty sequence of mouse reports processed with no report-sent signal in
between emits no event, leaves `usb_busy` and the keyboard queue as they were,
and leaves pending exactly one mouse event, built from the last report of the
sequence; when the next report-sent signal arrives with an empty keyboard
queue, exactly that event is emitted and the slot becomes empty. -/
theorem mouse_coalescing_last_wins (c : Cfg) (s : State) (reports : List (List Nat))
    (hne : reports ≠ []) (hb : s.usb_busy = true) (env : Env) :
    ∃ s1 out, process_mouse_reports c s reports = .ok (s1, out) ∧
      events out = [] ∧
      s1.next_mouse_event = some (mouse_report_event c s.usb_id (reports.getLast hne)) ∧
      s1.usb_busy = true ∧
      s1.keyboard_event_list = s.keyboard_event_list ∧
      (s1.keyboard_event_list = [] →
        event_handler c s1 event_header.hid_report_sent env =
          .ok ⟨{ s1 with next_mouse_event := none },
            [Effect.submit (Event.hid_mouse
              (mouse_report_event c s.usb_id (reports.getLast hne)))], false⟩) := by
  obtain ⟨s1, out, h1, he, hs⟩ := process_mouse_reports_busy c reports s hne hb
  refine ⟨s1, out, h1, he, by rw [hs], by rw [hs]; exact hb, by rw [hs], ?_⟩
  intro hq
  have hm : s1.next_mouse_event =
      some (mouse_report_event c s.usb_id (reports.getLast hne)) := by rw [hs]
  simp [event_handler, on_hid_report_sent, hq, hm, pure, Except.pure]

/-- Witness for C2: three mouse reports while a keyboard event is in flight. -/
theorem mouse_coalescing_last_wins_witness :
    ([[1, 0, 1, 0, 0], [0, 1, 2, 0, 0], [2, 0xFF, 0xFF, 0xFF, 0xFF]] : List (List Nat)) ≠ [] ∧
    ({ sample_state with usb_busy := true } : State).usb_busy = true ∧
    ∃ s1 out,
      process_mouse_reports sample_cfg { sample_state with usb_busy := true }
        [[1, 0, 1, 0, 0], [0, 1, 2, 0, 0], [2, 0xFF, 0xFF, 0xFF, 0xFF]] = .ok (s1, out) ∧
      events out = [] ∧
      s1.next_mouse_event = some (mouse_report_event sample_cfg
        ({ sample_state with usb_busy := true } : State).usb_id
        (([[1, 0, 1, 0, 0], [0, 1, 2, 0, 0], [2, 0xFF, 0xFF, 0xFF, 0xFF]] :
          List (List Nat)).getLast (by decide))) ∧
      s1.usb_busy = true ∧
      s1.keyboard_event_list
        = ({ sample_state with usb_busy := true } : State).keyboard_event_list ∧
      (s1.keyboard_event_list = [] →
        event_handler sample_cfg s1 event_header.hid_report_sent ⟨0, 0, 0⟩ =
          .ok ⟨{ s1 with next_mouse_event := none },
            [Effect.submit (Event.hid_mouse (mouse_report_event sample_cfg
              ({ sample_state with usb_busy := true } : State).usb_id
              (([[1, 0, 1, 0, 0], [0, 1, 2, 0, 0], [2, 0xFF, 0xFF, 0xFF, 0xFF]] :
                List (List Nat)).getLast (by decide))))], false⟩) :=
  ⟨by decide, rfl,
    mouse_coalescing_last_wins sample_cfg { sample_state with usb_busy := true }
      [[1, 0, 1, 0, 0], [0, 1, 2, 0, 0], [2, 0xFF, 0xFF, 0xFF, 0xFF]] (by decide) rfl ⟨0, 0, 0⟩⟩

/-- C3. Each report-sent signal has exactly one of three outcomes, keyboard
first: with a non-empty keyboard queue its head is removed and emitted, the
mouse slot and `usb_busy` unchanged; otherwise a pending mouse event is
emitted and the slot emptied, `usb_busy` unchanged; otherwise nothing is
emitted and `usb_busy` becomes false.  At most one event is emitted, and
nothing else in the state changes. -/
theorem report_sent_three_outcomes (c : Cfg) (s : State) (env : Env) :
    ∃ r, event_handler c s event_header.hid_report_sent env = .ok r ∧
      (events r.out).length ≤ 1 ∧
      match s.keyboard_event_list, s.next_mouse_event with
      | evt :: rest, _ =>
        r.out = [Effect.submit (Event.hid_keyboard evt)] ∧
        r.state = { s with keyboard_event_list := rest }
      | [], some e =>
        r.out = [Effect.submit (Event.hid_mouse e)] ∧
        r.state = { s with next_mouse_event := none }
      | [], none =>
        r.out = [] ∧ r.state = { s with usb_busy := false } := by
  refine ⟨on_hid_report_sent s, rfl, ?_, ?_⟩
  · unfold on_hid_report_sent
    split
    · simp [events]
    · split <;> simp [events]
  · unfold on_hid_report_sent
    cases hq : s.keyboard_event_list with
    | cons evt rest => simp
    | nil => cases hm : s.next_mouse_event <;> simp

/-- C6. A mouse report processed while USB is idle is emitted at once: with
`usb_ready` true, `usb_busy` false and nothing pending, `hidc_read` of a mouse
report emits exactly one mouse event with the decoded values and the current
USB subscriber id, sets `usb_busy`, and changes nothing else; for the bytes
`[0x01, 0x05, 0x10, 0x02, 0x30]` and `REPORT_MOUSE_XY_MAX = 0x07FF` the event
has `button_bm = 1`, `wheel = 5`, `dx = 528`, `dy = 768`. -/
theorem idle_mouse_report_emitted (c : Cfg) (s : State) (rep : rep_info) (data : List Nat)
    (k_malloc_ok : Bool) (hid : rep.id = c.REPORT_ID_MOUSE) (hr : s.usb_ready = true)
    (hb : s.usb_busy = false) (hm : s.next_mouse_event = none)
    (hq : s.keyboard_event_list = []) :
    (∃ r, hidc_read c s rep 0 (some data) k_malloc_ok = .ok r ∧
      r.out = [Effect.submit (Event.hid_mouse (mouse_report_event c s.usb_id data))] ∧
      (mouse_report_event c s.usb_id data).subscriber = s.usb_id ∧
      r.state = { s with usb_busy := true } ∧
      r.state.usb_busy = true ∧ r.state.next_mouse_event = none ∧
      r.state.keyboard_event_list = []) ∧
    (c.REPORT_MOUSE_XY_MAX = 0x07FF →
      mouse_report_event c s.usb_id [0x01, 0x05, 0x10, 0x02, 0x30] =
        { subscriber := s.usb_id, button_bm := 0x01, wheel := 5, dx := 528, dy := 768 }) := by
  constructor
  · refine ⟨⟨{ s with usb_busy := true }, _, .CONTINUE⟩, ?_, rfl, rfl, rfl, rfl, hm, hq⟩
    simp [hidc_read, hr, hid, process_mouse_report, hm, hb, bind, Except.bind, pure, Except.pure]
  · intro hmax
    unfold mouse_report_event
    rw [hmax]
    rfl

/-- Witness for C6: the scenario of the spec on the sample state. -/
theorem idle_mouse_report_emitted_witness :
    (⟨1, report_type.INPUT⟩ : rep_info).id = sample_cfg.REPORT_ID_MOUSE ∧
    sample_state.usb_ready = true ∧ sample_state.usb_busy = false ∧
    sample_state.next_mouse_event = none ∧ sample_state.keyboard_event_list = [] ∧
    (∃ r, hidc_read sample_cfg sample_state ⟨1, report_type.INPUT⟩ 0
        (some [0x01, 0x05, 0x10, 0x02, 0x30]) true = .ok r ∧
      r.out = [Effect.submit (Event.hid_mouse
        (mouse_report_event sample_cfg sample_state.usb_id [0x01, 0x05, 0x10, 0x02, 0x30]))] ∧
      (mouse_report_event sample_cfg sample_state.usb_id
        [0x01, 0x05, 0x10, 0x02, 0x30]).subscriber = sample_state.usb_id ∧
      r.state = { sample_state with usb_busy := true } ∧
      r.state.usb_busy = true ∧ r.state.next_mouse_event = none ∧
      r.state.keyboard_event_list = []) ∧
    (sample_cfg.REPORT_MOUSE_XY_MAX = 0x07FF →
      mouse_report_event sample_cfg sample_state.usb_id [0x01, 0x05, 0x10, 0x02, 0x30] =
        { subscriber := sample_state.usb_id, button_bm := 0x01, wheel := 5,
          dx := 528, dy := 768 }) :=
  ⟨rfl, rfl, rfl, rfl, rfl,
    idle_mouse_report_emitted sample_cfg sample_state ⟨1, report_type.INPUT⟩
      [0x01, 0x05, 0x10, 0x02, 0x30] true rfl rfl rfl rfl rfl⟩

/-- C7. Readiness gate: for every state and every report notification (any
report id, any bytes or none), if `usb_ready` is false or the notification
carries a non-zero error, `hidc_read` returns, emits nothing and leaves the
whole state unchanged, in particular `usb_busy`, the mouse slot and the
keyboard queue. -/
theorem readiness_gate (c : Cfg) (s : State) (rep : rep_info) (err : Nat)
    (data : Option (List Nat)) (k_malloc_ok : Bool)
    (hgate : s.usb_ready = false ∨ err ≠ 0) :
    ∃ r, hidc_read c s rep err data k_malloc_ok = .ok r ∧ r.out = [] ∧ r.state = s ∧
      r.state.usb_busy = s.usb_busy ∧ r.state.next_mouse_event = s.next_mouse_event ∧
      r.state.keyboard_event_list = s.keyboard_event_list := by
  cases data with
  | none => exact ⟨⟨s, [], .STOP⟩, rfl, rfl, rfl, rfl, rfl, rfl⟩
  | some d =>
    refine ⟨⟨s, [], .CONTINUE⟩, ?_, rfl, rfl, rfl, rfl, rfl⟩
    rcases hgate with h | h <;> simp [hidc_read, h]

/-- Witness for C7: a keyboard report with pending work while USB is not
ready. -/
theorem readiness_gate_witness :
    (({ sample_state with usb_ready := false, usb_busy := true } : State).usb_ready = false
      ∨ (0 : Nat) ≠ 0) ∧
    ∃ r, hidc_read sample_cfg { sample_state with usb_ready := false, usb_busy := true }
        ⟨2, report_type.INPUT⟩ 0 (some [2, 0, 4, 5, 6, 7, 8, 9]) true = .ok r ∧
      r.out = [] ∧
      r.state = { sample_state with usb_ready := false, usb_busy := true } ∧
      r.state.usb_busy
        = ({ sample_state with usb_ready := false, usb_busy := true } : State).usb_busy ∧
      r.state.next_mouse_event
        = ({ sample_state with usb_ready := false, usb_busy := true } : State).next_mouse_event ∧
      r.state.keyboard_event_list
        = ({ sample_state with usb_ready := false, usb_busy := true } :
            State).keyboard_event_list :=
  ⟨Or.inl rfl,
    readiness_gate sample_cfg { sample_state with usb_ready := false, usb_busy := true }
      ⟨2, report_type.INPUT⟩ 0 (some [2, 0, 4, 5, 6, 7, 8, 9]) true (Or.inl rfl)⟩

/-! ## Events in flight -/

theorem relay_step_not_ready (c : Cfg) (s : State) (i : RelayInput) (hr : s.usb_ready = false)
    (hi : i ≠ .report_sent) : relay_step c s i = .ok (s, []) := by
  cases i with
  | mouse data => simp [relay_step, hidc_read, hr, bind, Except.bind, pure, Except.pure]
  | keyboard data ok => simp [relay_step, hidc_read, hr, bind, Except.bind, pure, Except.pure]
  | report_sent => exact absurd rfl hi

theorem relay_step_keyboard_as_mouse (c : Cfg) (s : State) (data : List Nat) (ok : Bool)
    (heq : c.REPORT_ID_MOUSE = c.REPORT_ID_KEYBOARD_KEYS) :
    relay_step c s (.keyboard data ok) = relay_step c s (.mouse data) := by
  simp [relay_step, hidc_read, heq]

/-- One step of the relay core keeps "nothing pending while idle" and moves
the number of events in flight as the input says: a report adds the events it
emits, a sent signal that finds the sink busy takes one away. -/
theorem relay_step_flight (c : Cfg) (s : State) (i : RelayInput) (hi : idle_clean s)
    (r : State × List Effect) (hstep : relay_step c s i = .ok r) :
    idle_clean r.1 ∧
      (i ≠ .report_sent →
        (events r.2).length + (if s.usb_busy then 1 else 0) = (if r.1.usb_busy then 1 else 0)) ∧
      (i = .report_sent → s.usb_busy = true →
        (events r.2).length = (if r.1.usb_busy then 1 else 0)) := by
  have hmouse : ∀ data r, relay_step c s (.mouse data) = .ok r →
      idle_clean r.1 ∧
      (events r.2).length + (if s.usb_busy then 1 else 0) = (if r.1.usb_busy then 1 else 0) := by
    intro data r hstep
    cases hr : s.usb_ready
    · rw [relay_step_not_ready c s _ hr (by simp)] at hstep
      cases hstep
      exact ⟨hi, by simp [events]⟩
    · rw [relay_step_mouse c s data hr hi] at hstep
      cases hb : s.usb_busy
      · simp only [hb] at hstep
        cases hstep
        exact ⟨fun h => by simp at h, by simp [events]⟩
      · simp only [hb, if_true] at hstep
        cases hstep
        refine ⟨fun h => by simp [hb] at h, ?_⟩
        cases s.next_mouse_event <;> simp [events, hb]
  cases i with
  | mouse data =>
    obtain ⟨h1, h2⟩ := hmouse data r hstep
    exact ⟨h1, fun _ => h2, fun h => by cases h⟩
  | keyboard data ok =>
    by_cases heq : c.REPORT_ID_MOUSE = c.REPORT_ID_KEYBOARD_KEYS
    · rw [relay_step_keyboard_as_mouse c s data ok heq] at hstep
      obtain ⟨h1, h2⟩ := hmouse data r hstep
      exact ⟨h1, fun _ => h2, fun h => by cases h⟩
    · cases hr : s.usb_ready
      · rw [relay_step_not_ready c s _ hr (by simp)] at hstep
        cases hstep
        exact ⟨hi, fun _ => by simp [events], fun h => by cases h⟩
      · rw [relay_step_keyboard c s data ok heq hr] at hstep
        cases hb : s.usb_busy
        · simp only [hb] at hstep
          cases hstep
          exact ⟨fun h => by simp at h, fun _ => by simp [events], fun h => by cases h⟩
        · cases ok
          · simp [hb] at hstep
          · simp only [hb, if_true] at hstep
            cases hstep
            exact ⟨fun h => by simp [hb] at h, fun _ => by simp [events, hb],
              fun h => by cases h⟩
  | report_sent =>
    rw [relay_step_report_sent] at hstep
    cases hstep
    refine ⟨?_, fun h => absurd rfl h, ?_⟩
    · unfold on_hid_report_sent
      split
      · rename_i evt rest hq
        intro h
        have := hi h
        simp [hq] at this
      · rename_i hq
        split
        · rename_i e hm
          intro h
          have := hi h
          simp [hm] at this
        · rename_i hm
          intro _
          exact ⟨hm, hq⟩
    · intro _ hb
      unfold on_hid_report_sent
      split
      · simp [events, hb]
      · split <;> simp [events, hb]

/-- A step of the relay core returns unless a needed `k_malloc` fails. -/
theorem relay_step_returns (c : Cfg) (s : State) (i : RelayInput) (hi : idle_clean s)
    (hok : allocations_succeed [i] = true) : ∃ r, relay_step c s i = .ok r := by
  have hmouse : ∀ data, ∃ r, relay_step c s (.mouse data) = .ok r := by
    intro data
    cases hr : s.usb_ready
    · exact ⟨_, relay_step_not_ready c s _ hr (by simp)⟩
    · rw [relay_step_mouse c s data hr hi]
      split <;> exact ⟨_, rfl⟩
  cases i with
  | mouse data => exact hmouse data
  | keyboard data ok =>
    have hok' : ok = true := by simpa [allocations_succeed] using hok
    subst hok'
    by_cases heq : c.REPORT_ID_MOUSE = c.REPORT_ID_KEYBOARD_KEYS
    · rw [relay_step_keyboard_as_mouse c s data true heq]
      exact hmouse data
    · cases hr : s.usb_ready
      · exact ⟨_, relay_step_not_ready c s _ hr (by simp)⟩
      · rw [relay_step_keyboard c s data true heq hr]
        split <;> exact ⟨_, rfl⟩
  | report_sent => exact ⟨_, relay_step_report_sent c s⟩

theorem relay_run_returns (c : Cfg) (ins : List RelayInput) :
    ∀ s : State, idle_clean s → allocations_succeed ins = true →
      ∃ r, relay_run c s ins = .ok r := by
  induction ins with
  | nil => intro s _ _; exact ⟨_, rfl⟩
  | cons i rest ih =>
    intro s hi hok
    have hok1 : allocations_succeed [i] = true := by
      cases i <;> simp_all [allocations_succeed]
    have hok2 : allocations_succeed rest = true := by
      cases i <;> simp_all [allocations_succeed]
    obtain ⟨r1, h1⟩ := relay_step_returns c s i hi hok1
    obtain ⟨r2, h2⟩ := ih r1.1 (relay_step_flight c s i hi r1 h1).1 hok2
    exact ⟨(r2.1, r1.2 ++ r2.2),
      by simp [relay_run, h1, h2, bind, Except.bind, pure, Except.pure]⟩

theorem relay_run_flight (c : Cfg) (ins : List RelayInput) :
    ∀ (s : State) (emitted sent : Nat), idle_clean s →
      emitted = sent + (if s.usb_busy then 1 else 0) →
      acks_follow_emissions c s emitted sent ins = true →
      ∀ s1 out, relay_run c s ins = .ok (s1, out) →
        emitted + (events out).length
          = sent + sent_signals ins + (if s1.usb_busy then 1 else 0) := by
  induction ins with
  | nil =>
    intro s emitted sent _ hinv _ s1 out hrun
    cases hrun
    simp [events, sent_signals, hinv]
  | cons i rest ih =>
    intro s emitted sent hi hinv hack s1 out hrun
    rw [relay_run] at hrun
    cases hstep : relay_step c s i with
    | error e => simp [hstep, bind, Except.bind] at hrun
    | ok r1 =>
      cases hrest : relay_run c r1.1 rest with
      | error e => simp [hstep, hrest, bind, Except.bind] at hrun
      | ok r2 =>
        simp only [hstep, hrest, bind, Except.bind, pure, Except.pure, Except.ok.injEq,
          Prod.mk.injEq] at hrun
        obtain ⟨hs1, hout⟩ := hrun
        obtain ⟨hi1, hrep, hsent⟩ := relay_step_flight c s i hi r1 hstep
        simp only [acks_follow_emissions, after_step, hstep, Option.map_some', Option.getD_some,
          Bool.and_eq_true] at hack
        obtain ⟨hcond, hack2⟩ := hack
        have hinv1 : emitted + (events r1.2).length
            = sent + sent_signals [i] + (if r1.1.usb_busy then 1 else 0) := by
          cases i with
          | mouse data =>
            have := hrep (by simp)
            simp only [sent_signals]; omega
          | keyboard data ok =>
            have := hrep (by simp)
            simp only [sent_signals]; omega
          | report_sent =>
            have hlt : sent < emitted := by simpa [ack_expected] using hcond
            have hb : s.usb_busy = true := by
              cases hb : s.usb_busy
              · simp [hb] at hinv; omega
              · rfl
            have := hsent rfl hb
            simp only [hb, if_true] at hinv
            simp only [sent_signals]; omega
        have := ih r1.1 _ _ hi1 hinv1 hack2 r2.1 r2.2 hrest
        subst hs1
        subst hout
        have hsplit : sent_signals (i :: rest) = sent_signals [i] + sent_signals rest := by
          cases i <;> simp [sent_signals]; omega
        rw [events_append, List.length_append, hsplit]
        omega

theorem acks_follow_emissions_of_prefix (c : Cfg) (pre post : List RelayInput) :
    ∀ (s : State) (emitted sent : Nat),
      acks_follow_emissions c s emitted sent (pre ++ post) = true →
      acks_follow_emissions c s emitted sent pre = true := by
  induction pre with
  | nil => intro _ _ _ _; rfl
  | cons i rest ih =>
    intro s emitted sent h
    simp only [List.cons_append, acks_follow_emissions, Bool.and_eq_true] at h ⊢
    refine ⟨h.1, ?_⟩
    cases hstep : after_step c s i with
    | none => rfl
    | some r =>
      have h2 := h.2
      simp only [hstep, Option.map_some', Option.getD_some] at h2 ⊢
      exact ih _ _ _ h2

/-- C4. At most one event is in flight to USB: for every input sequence of
mouse reports, keyboard reports and report-sent signals handled from the
initial state in which each report-sent signal arrives while an emitted event
is unacknowledged, after every prefix of the sequence the number of emitted
events minus the number of report-sent signals is 0 or 1, and it is 1 exactly
when `usb_busy` is true.  The prefix is handled to its end unless a needed
`k_malloc` fails. -/
theorem at_most_one_in_flight (c : Cfg) (slots usb_id : Nat) (usb_ready : Bool)
    (ins pre : List RelayInput) (hpre : pre <+: ins)
    (hack : acks_follow_emissions c
      { State.initial slots with usb_ready := usb_ready, usb_id := usb_id } 0 0 ins = true) :
    (allocations_succeed pre = true →
      ∃ r, relay_run c { State.initial slots with usb_ready := usb_ready, usb_id := usb_id } pre
        = .ok r) ∧
    ∀ s out,
      relay_run c { State.initial slots with usb_ready := usb_ready, usb_id := usb_id } pre
        = .ok (s, out) →
      (((events out).length : Int) - (sent_signals pre : Int) = 0 ∨
        ((events out).length : Int) - (sent_signals pre : Int) = 1) ∧
      (((events out).length : Int) - (sent_signals pre : Int) = 1 ↔ s.usb_busy = true) := by
  have hclean : idle_clean
      { State.initial slots with usb_ready := usb_ready, usb_id := usb_id } :=
    fun _ => ⟨rfl, rfl⟩
  refine ⟨fun hok => relay_run_returns c pre _ hclean hok, ?_⟩
  intro s out hrun
  obtain ⟨post, hpost⟩ := hpre
  subst hpost
  have hack1 := acks_follow_emissions_of_prefix c pre post _ 0 0 hack
  have h := relay_run_flight c pre _ 0 0 hclean (by simp [State.initial]) hack1 s out hrun
  cases hb : s.usb_busy <;> simp [hb] at h ⊢ <;> omega

/-- Witness for C4: a run with an immediate emission, a queued keyboard
event, a coalesced mouse event and the three acknowledgements; the prefix
stops after the first acknowledgement. -/
theorem at_most_one_in_flight_witness :
    ([.mouse [1, 5, 0x10, 2, 0x30], .keyboard [2, 0, 4, 5, 6, 7, 8, 9] true,
      .mouse [0, 0, 1, 0, 0], .report_sent] : List RelayInput)
      <+: [.mouse [1, 5, 0x10, 2, 0x30], .keyboard [2, 0, 4, 5, 6, 7, 8, 9] true,
        .mouse [0, 0, 1, 0, 0], .report_sent, .report_sent, .report_sent] ∧
    acks_follow_emissions sample_cfg
      { State.initial 2 with usb_ready := true, usb_id := 7 } 0 0
      [.mouse [1, 5, 0x10, 2, 0x30], .keyboard [2, 0, 4, 5, 6, 7, 8, 9] true,
        .mouse [0, 0, 1, 0, 0], .report_sent, .report_sent, .report_sent] = true ∧
    (allocations_succeed
        [.mouse [1, 5, 0x10, 2, 0x30], .keyboard [2, 0, 4, 5, 6, 7, 8, 9] true,
          .mouse [0, 0, 1, 0, 0], .report_sent] = true →
      ∃ r, relay_run sample_cfg { State.initial 2 with usb_ready := true, usb_id := 7 }
          [.mouse [1, 5, 0x10, 2, 0x30], .keyboard [2, 0, 4, 5, 6, 7, 8, 9] true,
            .mouse [0, 0, 1, 0, 0], .report_sent] = .ok r) ∧
    ∀ s out,
      relay_run sample_cfg { State.initial 2 with usb_ready := true, usb_id := 7 }
        [.mouse [1, 5, 0x10, 2, 0x30], .keyboard [2, 0, 4, 5, 6, 7, 8, 9] true,
          .mouse [0, 0, 1, 0, 0], .report_sent] = .ok (s, out) →
      (((events out).length : Int) - (sent_signals
          [.mouse [1, 5, 0x10, 2, 0x30], .keyboard [2, 0, 4, 5, 6, 7, 8, 9] true,
            .mouse [0, 0, 1, 0, 0], .report_sent] : Int) = 0 ∨
        ((events out).length : Int) - (sent_signals
          [.mouse [1, 5, 0x10, 2, 0x30], .keyboard [2, 0, 4, 5, 6, 7, 8, 9] true,
            .mouse [0, 0, 1, 0, 0], .report_sent] : Int) = 1) ∧
      (((events out).length : Int) - (sent_signals
          [.mouse [1, 5, 0x10, 2, 0x30], .keyboard [2, 0, 4, 5, 6, 7, 8, 9] true,
            .mouse [0, 0, 1, 0, 0], .report_sent] : Int) = 1 ↔ s.usb_busy = true) :=
  ⟨⟨[.report_sent, .report_sent], rfl⟩, by decide,
    at_most_one_in_flight sample_cfg 2 7 true _ _ ⟨[.report_sent, .report_sent], rfl⟩
      (by decide)⟩

/-! ## Config forwarding: fetch requests and read completions -/

theorem reads_append (a b : List Effect) : reads (a ++ b) = reads a ++ reads b := by
  induction a with
  | nil => rfl
  | cons x xs ih => cases x <;> simp [reads, ih]

/-- A `config_forward_get_event` handled in `Idle` with slot 0 ready, the
config feature report present and the read accepted: the pending notification
is emitted, the channel context stored and one read issued. -/
theorem config_forward_get_issues_read (c : Cfg) (s : State) (channel_id : Nat) (env : Env)
    (hidc0 : bt_gatt_hids_c) (rep : rep_info)
    (hen : c.CONFIG_DESKTOP_CONFIG_CHANNEL_ENABLE = true)
    (hidle : s.forward_pending = false)
    (hslot : s.hidc.head? = some hidc0) (hready : hidc0.ready = true)
    (hrep : bt_gatt_hids_c_rep_find hidc0 report_type.FEATURE c.REPORT_ID_USER_CONFIG = some rep)
    (hissued : env.rep_read_err = 0) :
    event_handler c s (.config_forward_get channel_id) env =
      .ok ⟨{ s with forward_pending := true, channel_id := channel_id },
        [Effect.submit (Event.config_forwarded config_status.PENDING),
         Effect.rep_read 0 rep Callback.hidc_read_cfg], false⟩ := by
  simp [event_handler, on_config_forward_get, hen, hidle, hslot, hready, hrep, hissued,
    bt_gatt_hids_c_ready_check, notify_config_forwarded, pure, Except.pure]

/-- A `config_forward_get_event` handled while a fetch is pending only logs. -/
theorem config_forward_get_pending (c : Cfg) (s : State) (channel_id : Nat) (env : Env)
    (hen : c.CONFIG_DESKTOP_CONFIG_CHANNEL_ENABLE = true) (hp : s.forward_pending = true) :
    event_handler c s (.config_forward_get channel_id) env =
      .ok ⟨s, [Effect.log Log.read_already_pending], false⟩ := by
  simp [event_handler, on_config_forward_get, hen, hp, pure, Except.pure]

theorem hidc_read_cfg_events_le_one (c : Cfg) (s : State) (err : Nat) (data : List Nat) :
    (events (hidc_read_cfg c s err data).out).length ≤ 1 := by
  unfold hidc_read_cfg
  split
  · simp [events, notify_config_forwarded]
  · simp only []
    split
    · simp [events]
    · split <;> simp [events]

/-- C8 (as amended). Duplicate fetch requests are coalesced: from `Idle` with
slot 0 ready and the config feature report present, two `forward_get` events
handled before the read completes issue exactly one feature-report read; the
second issues no read, emits no event and leaves the state, with
`forward_pending` and the stored channel context, unchanged.  The single
completion then notifies the requester at most once: exactly once on a
transport error or a decoded success frame, not at all on a decoded frame
whose status is not success. -/
theorem duplicate_fetch_coalesced (c : Cfg) (s : State) (ch1 ch2 : Nat) (env1 env2 : Env)
    (hidc0 : bt_gatt_hids_c) (rep : rep_info)
    (hen : c.CONFIG_DESKTOP_CONFIG_CHANNEL_ENABLE = true)
    (hidle : s.forward_pending = false)
    (hslot : s.hidc.head? = some hidc0) (hready : hidc0.ready = true)
    (hrep : bt_gatt_hids_c_rep_find hidc0 report_type.FEATURE c.REPORT_ID_USER_CONFIG = some rep)
    (hissued : env1.rep_read_err = 0) :
    ∃ r1 r2,
      event_handler c s (.config_forward_get ch1) env1 = .ok r1 ∧
      event_handler c r1.state (.config_forward_get ch2) env2 = .ok r2 ∧
      reads (r1.out ++ r2.out) = [(0, rep, Callback.hidc_read_cfg)] ∧
      reads r2.out = [] ∧ events r2.out = [] ∧
      r2.state = r1.state ∧
      r2.state.forward_pending = true ∧ r2.state.channel_id = ch1 ∧
      (∀ err data, (events (hidc_read_cfg c r2.state err data).out).length ≤ 1) ∧
      (∀ err data, err ≠ 0 →
        (events (hidc_read_cfg c r2.state err data).out).length = 1) ∧
      (∀ data, 0 ≤ (c.config_channel_report_parse data c.REPORT_SIZE_USER_CONFIG).1 →
        (c.config_channel_report_parse data c.REPORT_SIZE_USER_CONFIG).2.status
          = some config_status.SUCCESS →
        (events (hidc_read_cfg c r2.state 0 data).out).length = 1) ∧
      (∀ data, 0 ≤ (c.config_channel_report_parse data c.REPORT_SIZE_USER_CONFIG).1 →
        (c.config_channel_report_parse data c.REPORT_SIZE_USER_CONFIG).2.status
          ≠ some config_status.SUCCESS →
        (events (hidc_read_cfg c r2.state 0 data).out).length = 0) := by
  refine ⟨_, _,
    config_forward_get_issues_read c s ch1 env1 hidc0 rep hen hidle hslot hready hrep hissued,
    config_forward_get_pending c _ ch2 env2 hen rfl, ?_, ?_, ?_, rfl, rfl, rfl, ?_, ?_, ?_, ?_⟩
  · simp [reads]
  · simp [reads]
  · simp [events]
  · intro err data
    exact hidc_read_cfg_events_le_one c _ err data
  · intro err data herr
    simp [hidc_read_cfg, herr, notify_config_forwarded, events]
  · intro data hpos hst
    have hpos' : ¬ (c.config_channel_report_parse data c.REPORT_SIZE_USER_CONFIG).1 < 0 := by
      omega
    simp [hidc_read_cfg, hpos', hst, events]
  · intro data hpos hst
    have hpos' : ¬ (c.config_channel_report_parse data c.REPORT_SIZE_USER_CONFIG).1 < 0 := by
      omega
    simp [hidc_read_cfg, hpos', hst, events]

/-- Counterexample for C8 as worded: two `forward_get` events from `Idle`
issue one read; the read completes without transport error with a frame whose
status is pending, and the completion emits no event at all, so the pair gets
no completion notification. -/
theorem duplicate_fetch_not_ready_unnotified :
    ∃ r1 r2,
      event_handler sample_cfg sample_state (.config_forward_get 11) ⟨0, 0, 0⟩ = .ok r1 ∧
      event_handler sample_cfg r1.state (.config_forward_get 12) ⟨0, 0, 0⟩ = .ok r2 ∧
      reads (r1.out ++ r2.out) = [(0, ⟨5, report_type.FEATURE⟩, Callback.hidc_read_cfg)] ∧
      events (r1.out ++ r2.out) = [Event.config_forwarded config_status.PENDING] ∧
      (sample_cfg.config_channel_report_parse not_ready_report
        sample_cfg.REPORT_SIZE_USER_CONFIG).1 = 4 ∧
      events (hidc_read_cfg sample_cfg r2.state 0 not_ready_report).out = [] ∧
      (events (hidc_read_cfg sample_cfg r2.state 0 not_ready_report).out).length ≠ 1 :=
  ⟨_, _, rfl, rfl, rfl, rfl, rfl, rfl, by decide⟩

/-- Witness for C8 (as amended): two fetch requests on the sample state. -/
theorem duplicate_fetch_coalesced_witness :
    sample_cfg.CONFIG_DESKTOP_CONFIG_CHANNEL_ENABLE = true ∧
    sample_state.forward_pending = false ∧
    sample_state.hidc.head? = some ⟨3, true, [⟨1, report_type.INPUT⟩, ⟨5, report_type.FEATURE⟩]⟩ ∧
    bt_gatt_hids_c_rep_find ⟨3, true, [⟨1, report_type.INPUT⟩, ⟨5, report_type.FEATURE⟩]⟩
      report_type.FEATURE sample_cfg.REPORT_ID_USER_CONFIG = some ⟨5, report_type.FEATURE⟩ ∧
    ∃ r1 r2,
      event_handler sample_cfg sample_state (.config_forward_get 11) ⟨0, 0, 0⟩ = .ok r1 ∧
      event_handler sample_cfg r1.state (.config_forward_get 12) ⟨0, 0, 0⟩ = .ok r2 ∧
      reads (r1.out ++ r2.out) = [(0, ⟨5, report_type.FEATURE⟩, Callback.hidc_read_cfg)] ∧
      reads r2.out = [] ∧ events r2.out = [] ∧
      r2.state = r1.state ∧
      r2.state.forward_pending = true ∧ r2.state.channel_id = 11 ∧
      (∀ err data, (events (hidc_read_cfg sample_cfg r2.state err data).out).length ≤ 1) ∧
      (∀ err data, err ≠ 0 →
        (events (hidc_read_cfg sample_cfg r2.state err data).out).length = 1) ∧
      (∀ data,
        0 ≤ (sample_cfg.config_channel_report_parse data sample_cfg.REPORT_SIZE_USER_CONFIG).1 →
        (sample_cfg.config_channel_report_parse data sample_cfg.REPORT_SIZE_USER_CONFIG).2.status
          = some config_status.SUCCESS →
        (events (hidc_read_cfg sample_cfg r2.state 0 data).out).length = 1) ∧
      (∀ data,
        0 ≤ (sample_cfg.config_channel_report_parse data sample_cfg.REPORT_SIZE_USER_CONFIG).1 →
        (sample_cfg.config_channel_report_parse data sample_cfg.REPORT_SIZE_USER_CONFIG).2.status
          ≠ some config_status.SUCCESS →
        (events (hidc_read_cfg sample_cfg r2.state 0 data).out).length = 0) :=
  ⟨rfl, rfl, rfl, rfl,
    duplicate_fetch_coalesced sample_cfg sample_state 11 12 ⟨0, 0, 0⟩ ⟨0, 0, 0⟩
      ⟨3, true, [⟨1, report_type.INPUT⟩, ⟨5, report_type.FEATURE⟩]⟩
      ⟨5, report_type.FEATURE⟩ rfl rfl rfl rfl rfl rfl⟩

/-! ## Read completion and the return to idle -/

/-- C9 (the code departs from the claim). A read issued by `forward_get` on the
sample state: a completion with a transport error and a completion with a frame
whose status is pending both leave `forward_pending` false, but a completion
with a decoded success frame emits the fetch event and leaves `forward_pending`
true, and the `forward_get` that follows only logs "GATT read already pending":
it issues no read and emits no event. -/
theorem fetch_success_stays_pending :
    ∃ r1 r3,
      event_handler sample_cfg sample_state (.config_forward_get 11) ⟨0, 0, 0⟩ = .ok r1 ∧
      reads r1.out = [(0, ⟨5, report_type.FEATURE⟩, Callback.hidc_read_cfg)] ∧
      r1.state.forward_pending = true ∧
      (hidc_read_cfg sample_cfg r1.state 1 success_report).state.forward_pending = false ∧
      (hidc_read_cfg sample_cfg r1.state 0 not_ready_report).state.forward_pending = false ∧
      (hidc_read_cfg sample_cfg r1.state 0 success_report).out =
        [Effect.submit (Event.config_fetch ⟨3, 9, 11, [0xAA, 0xBB]⟩)] ∧
      (hidc_read_cfg sample_cfg r1.state 0 success_report).state.forward_pending = true ∧
      event_handler sample_cfg (hidc_read_cfg sample_cfg r1.state 0 success_report).state
        (.config_forward_get 12) ⟨0, 0, 0⟩ = .ok r3 ∧
      r3.out = [Effect.log Log.read_already_pending] ∧
      reads r3.out = [] ∧ events r3.out = [] ∧
      r3.state.forward_pending = true :=
  ⟨_, _, rfl, rfl, rfl, rfl, rfl, rfl, rfl, rfl, rfl, rfl, rfl, rfl⟩

/-- C10. Outcome of a successful read: a `forward_get` with channel context
`ch` handled in `Idle` (slot 0 ready, config feature report present, read
accepted) stores `ch`; when the read then completes without transport error and
the frame decodes (the parser returns a position `pos ≥ 0`), a decoded status
other than success emits no event at all, and a decoded status of success emits
exactly one event, a config-fetch event with the frame's event id and
recipient, `channel_id = ch` and as payload the `event_data_len` bytes of the
report from `pos` on. -/
theorem fetch_read_outcome (c : Cfg) (s : State) (ch : Nat) (env : Env)
    (hidc0 : bt_gatt_hids_c) (rep : rep_info) (data : List Nat)
    (hen : c.CONFIG_DESKTOP_CONFIG_CHANNEL_ENABLE = true)
    (hidle : s.forward_pending = false)
    (hslot : s.hidc.head? = some hidc0) (hready : hidc0.ready = true)
    (hrep : bt_gatt_hids_c_rep_find hidc0 report_type.FEATURE c.REPORT_ID_USER_CONFIG = some rep)
    (hissued : env.rep_read_err = 0)
    (hpos : 0 ≤ (c.config_channel_report_parse data c.REPORT_SIZE_USER_CONFIG).1) :
    ∃ r1,
      event_handler c s (.config_forward_get ch) env = .ok r1 ∧
      reads r1.out = [(0, rep, Callback.hidc_read_cfg)] ∧
      r1.state.channel_id = ch ∧
      ((c.config_channel_report_parse data c.REPORT_SIZE_USER_CONFIG).2.status
          ≠ some config_status.SUCCESS →
        events (hidc_read_cfg c r1.state 0 data).out = []) ∧
      ((c.config_channel_report_parse data c.REPORT_SIZE_USER_CONFIG).2.status
          = some config_status.SUCCESS →
        events (hidc_read_cfg c r1.state 0 data).out =
          [Event.config_fetch
            { id := (c.config_channel_report_parse data c.REPORT_SIZE_USER_CONFIG).2.event_id
              recipient :=
                (c.config_channel_report_parse data c.REPORT_SIZE_USER_CONFIG).2.recipient
              channel_id := ch
              dyndata := (data.drop
                (c.config_channel_report_parse data c.REPORT_SIZE_USER_CONFIG).1.toNat).take
                (c.config_channel_report_parse data c.REPORT_SIZE_USER_CONFIG).2.event_data_len
            }]) := by
  have hpos' : ¬ (c.config_channel_report_parse data c.REPORT_SIZE_USER_CONFIG).1 < 0 := by
    omega
  refine ⟨_,
    config_forward_get_issues_read c s ch env hidc0 rep hen hidle hslot hready hrep hissued,
    ?_, rfl, ?_, ?_⟩
  · simp [reads]
  · intro hst
    simp [hidc_read_cfg, hpos', hst, events]
  · intro hst
    simp [hidc_read_cfg, hpos', hst, events]

/-- Witness for C10: the sample success frame read for channel context 11. -/
theorem fetch_read_outcome_witness :
    sample_cfg.CONFIG_DESKTOP_CONFIG_CHANNEL_ENABLE = true ∧
    sample_state.forward_pending = false ∧
    sample_state.hidc.head? =
      some ⟨3, true, [⟨1, report_type.INPUT⟩, ⟨5, report_type.FEATURE⟩]⟩ ∧
    bt_gatt_hids_c_rep_find ⟨3, true, [⟨1, report_type.INPUT⟩, ⟨5, report_type.FEATURE⟩]⟩
      report_type.FEATURE sample_cfg.REPORT_ID_USER_CONFIG = some ⟨5, report_type.FEATURE⟩ ∧
    0 ≤ (sample_cfg.config_channel_report_parse success_report
      sample_cfg.REPORT_SIZE_USER_CONFIG).1 ∧
    (sample_cfg.config_channel_report_parse success_report
      sample_cfg.REPORT_SIZE_USER_CONFIG).2.status = some config_status.SUCCESS ∧
    ∃ r1,
      event_handler sample_cfg sample_state (.config_forward_get 11) ⟨0, 0, 0⟩ = .ok r1 ∧
      events (hidc_read_cfg sample_cfg r1.state 0 success_report).out =
        [Event.config_fetch ⟨3, 9, 11, [0xAA, 0xBB]⟩] :=
  ⟨rfl, rfl, rfl, rfl, by decide, rfl,
    (fetch_read_outcome sample_cfg sample_state 11 ⟨0, 0, 0⟩
      ⟨3, true, [⟨1, report_type.INPUT⟩, ⟨5, report_type.FEATURE⟩]⟩ ⟨5, report_type.FEATURE⟩
      success_report rfl rfl rfl rfl rfl rfl (by decide)).elim
      fun r1 h => ⟨r1, h.1, h.2.2.2.2 rfl⟩⟩

/-! ## Config requests that fail fast -/

theorem config_forward_not_ready (c : Cfg) (s : State) (event : config_forward_event) (env : Env)
    (hidc0 : bt_gatt_hids_c) (hen : c.CONFIG_DESKTOP_CONFIG_CHANNEL_ENABLE = true)
    (hslot : s.hidc.head? = some hidc0) (hready : hidc0.ready = false) :
    event_handler c s (.config_forward event) env =
      .ok ⟨{ s with forward_pending := false },
        [Effect.log Log.cannot_forward_peer_disconnected,
         Effect.submit (Event.config_forwarded config_status.DISCONNECTED_ERROR)], false⟩ := by
  simp [event_handler, on_config_forward, hen, hslot, hready, bt_gatt_hids_c_ready_check,
    notify_config_forwarded, pure, Except.pure]

theorem config_forward_get_not_ready (c : Cfg) (s : State) (ch : Nat) (env : Env)
    (hidc0 : bt_gatt_hids_c) (hen : c.CONFIG_DESKTOP_CONFIG_CHANNEL_ENABLE = true)
    (hidle : s.forward_pending = false)
    (hslot : s.hidc.head? = some hidc0) (hready : hidc0.ready = false) :
    event_handler c s (.config_forward_get ch) env =
      .ok ⟨{ s with forward_pending := false },
        [Effect.log Log.cannot_forward_peer_disconnected,
         Effect.submit (Event.config_forwarded config_status.DISCONNECTED_ERROR)], false⟩ := by
  simp [event_handler, on_config_forward_get, hen, hidle, hslot, hready,
    bt_gatt_hids_c_ready_check, notify_config_forwarded, pure, Except.pure]

theorem config_forward_no_report (c : Cfg) (s : State) (event : config_forward_event) (env : Env)
    (hidc0 : bt_gatt_hids_c) (hen : c.CONFIG_DESKTOP_CONFIG_CHANNEL_ENABLE = true)
    (hslot : s.hidc.head? = some hidc0) (hready : hidc0.ready = true)
    (hrep : bt_gatt_hids_c_rep_find hidc0 report_type.FEATURE c.REPORT_ID_USER_CONFIG = none) :
    event_handler c s (.config_forward event) env =
      .ok ⟨{ s with forward_pending := false },
        [Effect.log Log.feature_report_not_found,
         Effect.submit (Event.config_forwarded config_status.WRITE_ERROR)], false⟩ := by
  simp [event_handler, on_config_forward, hen, hslot, hready, hrep, bt_gatt_hids_c_ready_check,
    notify_config_forwarded, pure, Except.pure]

theorem config_forward_get_no_report (c : Cfg) (s : State) (ch : Nat) (env : Env)
    (hidc0 : bt_gatt_hids_c) (hen : c.CONFIG_DESKTOP_CONFIG_CHANNEL_ENABLE = true)
    (hidle : s.forward_pending = false)
    (hslot : s.hidc.head? = some hidc0) (hready : hidc0.ready = true)
    (hrep : bt_gatt_hids_c_rep_find hidc0 report_type.FEATURE c.REPORT_ID_USER_CONFIG = none) :
    event_handler c s (.config_forward_get ch) env =
      .ok ⟨{ s with forward_pending := false },
        [Effect.log Log.feature_report_not_found,
         Effect.submit (Event.config_forwarded config_status.WRITE_ERROR)], false⟩ := by
  simp [event_handler, on_config_forward_get, hen, hidle, hslot, hready, hrep,
    bt_gatt_hids_c_ready_check, notify_config_forwarded, pure, Except.pure]

/-- A `config_forward_event` with slot 0 ready, the config feature report
present and a payload of more than 255 bytes: the handler logs and stops at
the assertion, or with assertions compiled out returns with the state
untouched. -/
theorem config_forward_oversized (c : Cfg) (s : State) (event : config_forward_event) (env : Env)
    (hidc0 : bt_gatt_hids_c) (rep : rep_info)
    (hen : c.CONFIG_DESKTOP_CONFIG_CHANNEL_ENABLE = true)
    (hslot : s.hidc.head? = some hidc0) (hready : hidc0.ready = true)
    (hrep : bt_gatt_hids_c_rep_find hidc0 report_type.FEATURE c.REPORT_ID_USER_CONFIG = some rep)
    (hbig : 255 < event.dyndata.length) :
    event_handler c s (.config_forward event) env =
      if c.CONFIG_ASSERT then .error Fault.assert
      else .ok ⟨s, [Effect.log Log.event_data_too_big], false⟩ := by
  cases ha : c.CONFIG_ASSERT <;>
    simp [event_handler, on_config_forward, hen, hslot, hready, hrep, hbig,
      bt_gatt_hids_c_ready_check, ASSERT, ha, bind, Except.bind, pure, Except.pure]

/-- Counterexample for C11 as worded: with assertions compiled out, a
`forward_write` with a 256-byte payload handled while a fetch is pending
issues no write but leaves `forward_pending` true. -/
theorem oversized_write_keeps_pending :
    ∃ r1 r2,
      event_handler sample_cfg_release sample_state (.config_forward_get 11) ⟨0, 0, 0⟩ = .ok r1 ∧
      r1.state.forward_pending = true ∧
      oversized_request.dyndata.length = 256 ∧
      event_handler sample_cfg_release r1.state (.config_forward oversized_request) ⟨0, 0, 0⟩
        = .ok r2 ∧
      writes r2.out = [] ∧ reads r2.out = [] ∧
      r2.state.forward_pending = true ∧ r2.state.forward_pending ≠ false :=
  ⟨⟨{ sample_state with forward_pending := true, channel_id := 11 },
      [Effect.submit (Event.config_forwarded config_status.PENDING),
       Effect.rep_read 0 ⟨5, report_type.FEATURE⟩ Callback.hidc_read_cfg], false⟩,
    ⟨{ sample_state with forward_pending := true, channel_id := 11 },
      [Effect.log Log.event_data_too_big], false⟩,
    rfl, rfl, List.length_replicate 256 0,
    (config_forward_oversized sample_cfg_release
      { sample_state with forward_pending := true, channel_id := 11 } oversized_request
      ⟨0, 0, 0⟩ ⟨3, true, [⟨1, report_type.INPUT⟩, ⟨5, report_type.FEATURE⟩]⟩
      ⟨5, report_type.FEATURE⟩ rfl rfl rfl rfl
      (by rw [show oversized_request.dyndata.length = 256 from List.length_replicate 256 0]
          decide)).trans rfl,
    rfl, rfl, rfl, by decide⟩

/-- C11 (as amended). Config requests fail fast on slot 0 without touching the
peripheral: for a `forward_write`, and for a `forward_get` when no fetch is
pending, if slot 0 is not ready no read or write is issued and exactly one
config-forwarded event with status disconnected-error is emitted, whatever the
other slots hold; if slot 0 is ready but has no feature report with the
user-config id, no read or write is issued and exactly one config-forwarded
event with status write-error is emitted; in these two cases `forward_pending`
ends false.  A `forward_write` with a payload of more than 255 bytes issues no
read or write; with slot 0 ready and the report present it stops at the
assertion, or with assertions compiled out returns leaving the state, and so
`forward_pending`, as it was. -/
theorem config_requests_fail_fast (c : Cfg) (s : State) (env : Env) (hidc0 : bt_gatt_hids_c)
    (eh : event_header)
    (hen : c.CONFIG_DESKTOP_CONFIG_CHANNEL_ENABLE = true)
    (hslot : s.hidc.head? = some hidc0)
    (hreq : (∃ event, eh = .config_forward event) ∨
      (∃ ch, eh = .config_forward_get ch ∧ s.forward_pending = false)) :
    (hidc0.ready = false →
      ∃ r, event_handler c s eh env = .ok r ∧ reads r.out = [] ∧ writes r.out = [] ∧
        events r.out = [Event.config_forwarded config_status.DISCONNECTED_ERROR] ∧
        r.state = { s with forward_pending := false } ∧ r.state.forward_pending = false) ∧
    (hidc0.ready = true →
      bt_gatt_hids_c_rep_find hidc0 report_type.FEATURE c.REPORT_ID_USER_CONFIG = none →
      ∃ r, event_handler c s eh env = .ok r ∧ reads r.out = [] ∧ writes r.out = [] ∧
        events r.out = [Event.config_forwarded config_status.WRITE_ERROR] ∧
        r.state = { s with forward_pending := false } ∧ r.state.forward_pending = false) ∧
    (∀ event, eh = .config_forward event → 255 < event.dyndata.length →
      (∀ r, event_handler c s eh env = .ok r → reads r.out = [] ∧ writes r.out = []) ∧
      (hidc0.ready = true →
        bt_gatt_hids_c_rep_find hidc0 report_type.FEATURE c.REPORT_ID_USER_CONFIG ≠ none →
        event_handler c s eh env =
          if c.CONFIG_ASSERT then .error Fault.assert
          else .ok ⟨s, [Effect.log Log.event_data_too_big], false⟩)) := by
  refine ⟨?_, ?_, ?_⟩
  · intro hready
    rcases hreq with ⟨event, rfl⟩ | ⟨ch, rfl, hidle⟩
    · exact ⟨_, config_forward_not_ready c s event env hidc0 hen hslot hready,
        rfl, rfl, rfl, rfl, rfl⟩
    · exact ⟨_, config_forward_get_not_ready c s ch env hidc0 hen hidle hslot hready,
        rfl, rfl, rfl, rfl, rfl⟩
  · intro hready hrep
    rcases hreq with ⟨event, rfl⟩ | ⟨ch, rfl, hidle⟩
    · exact ⟨_, config_forward_no_report c s event env hidc0 hen hslot hready hrep,
        rfl, rfl, rfl, rfl, rfl⟩
    · exact ⟨_, config_forward_get_no_report c s ch env hidc0 hen hidle hslot hready hrep,
        rfl, rfl, rfl, rfl, rfl⟩
  · intro event heh hbig
    subst heh
    have hover : ∀ rep,
        bt_gatt_hids_c_rep_find hidc0 report_type.FEATURE c.REPORT_ID_USER_CONFIG = some rep →
        hidc0.ready = true →
        event_handler c s (.config_forward event) env =
          if c.CONFIG_ASSERT then .error Fault.assert
          else .ok ⟨s, [Effect.log Log.event_data_too_big], false⟩ :=
      fun rep hrep hready =>
        config_forward_oversized c s event env hidc0 rep hen hslot hready hrep hbig
    constructor
    · intro r hr
      cases hready : hidc0.ready
      · rw [config_forward_not_ready c s event env hidc0 hen hslot hready] at hr
        cases hr
        exact ⟨rfl, rfl⟩
      · cases hrep : bt_gatt_hids_c_rep_find hidc0 report_type.FEATURE c.REPORT_ID_USER_CONFIG
        · rw [config_forward_no_report c s event env hidc0 hen hslot hready hrep] at hr
          cases hr
          exact ⟨rfl, rfl⟩
        · rw [hover _ hrep hready] at hr
          cases ha : c.CONFIG_ASSERT
          · simp only [ha] at hr
            cases hr
            exact ⟨rfl, rfl⟩
          · simp [ha] at hr
    · intro hready hrep
      cases hfind : bt_gatt_hids_c_rep_find hidc0 report_type.FEATURE c.REPORT_ID_USER_CONFIG
      · exact absurd hfind hrep
      · exact hover _ hfind hready

/-- Witness for C11 (as amended): a `forward_write` while slot 0 is not ready
and slot 1 is. -/
theorem config_requests_fail_fast_witness :
    sample_cfg.CONFIG_DESKTOP_CONFIG_CHANNEL_ENABLE = true ∧
    ({ sample_state with hidc := [⟨3, false, []⟩, ⟨4, true, [⟨5, report_type.FEATURE⟩]⟩] }
      : State).hidc.head? = some ⟨3, false, []⟩ ∧
    (∃ event, event_header.config_forward set_request = .config_forward event) ∧
    ∃ r,
      event_handler sample_cfg
        { sample_state with hidc := [⟨3, false, []⟩, ⟨4, true, [⟨5, report_type.FEATURE⟩]⟩] }
        (.config_forward set_request) ⟨0, 0, 0⟩ = .ok r ∧
      reads r.out = [] ∧ writes r.out = [] ∧
      events r.out = [Event.config_forwarded config_status.DISCONNECTED_ERROR] ∧
      r.state =
        { ({ sample_state with hidc := [⟨3, false, []⟩, ⟨4, true, [⟨5, report_type.FEATURE⟩]⟩] }
            : State) with forward_pending := false } ∧
      r.state.forward_pending = false :=
  ⟨rfl, rfl, ⟨set_request, rfl⟩,
    (config_requests_fail_fast sample_cfg
      { sample_state with hidc := [⟨3, false, []⟩, ⟨4, true, [⟨5, report_type.FEATURE⟩]⟩] }
      ⟨0, 0, 0⟩ ⟨3, false, []⟩ (.config_forward set_request) rfl rfl
      (Or.inl ⟨set_request, rfl⟩)).1 rfl⟩

/-! ## Completion callbacks and the frame of a forwarded write -/

theorem writes_append (a b : List Effect) : writes (a ++ b) = writes a ++ writes b := by
  induction a with
  | nil => rfl
  | cons x xs ih => cases x <;> simp [writes, ih]

/-- C12. Transport results are surfaced as exactly one named outcome:
`hidc_write_cb` emits exactly one config-forwarded event, with status
write-error when the transport error is non-zero and success otherwise;
`hidc_read_cfg` with a non-zero transport error emits exactly one
config-forwarded event with status write-error and no config-fetch event.
Neither callback issues a read or a write. -/
theorem transport_results_surfaced (c : Cfg) (s : State) (err : Nat) (data : List Nat) :
    events (hidc_write_cb s err).out =
      [Event.config_forwarded
        (if err ≠ 0 then config_status.WRITE_ERROR else config_status.SUCCESS)] ∧
    reads (hidc_write_cb s err).out = [] ∧ writes (hidc_write_cb s err).out = [] ∧
    (err ≠ 0 →
      events (hidc_read_cfg c s err data).out
        = [Event.config_forwarded config_status.WRITE_ERROR]) ∧
    reads (hidc_read_cfg c s err data).out = [] ∧
    writes (hidc_read_cfg c s err data).out = [] := by
  refine ⟨?_, ?_, ?_, ?_, ?_, ?_⟩
  · by_cases h : err = 0 <;> simp [hidc_write_cb, h, notify_config_forwarded, events]
  · by_cases h : err = 0 <;> simp [hidc_write_cb, h, notify_config_forwarded, reads]
  · by_cases h : err = 0 <;> simp [hidc_write_cb, h, notify_config_forwarded, writes]
  · intro h
    simp [hidc_read_cfg, h, notify_config_forwarded, events]
  · unfold hidc_read_cfg
    split
    · simp [reads, notify_config_forwarded]
    · simp only []
      split
      · simp [reads]
      · split <;> simp [reads]
  · unfold hidc_read_cfg
    split
    · simp [writes, notify_config_forwarded]
    · simp only []
      split
      · simp [writes]
      · split <;> simp [writes]

/-- Witness for C12: both callbacks with transport error 5. -/
theorem transport_results_surfaced_witness :
    (5 : Nat) ≠ 0 ∧
    events (hidc_write_cb sample_state 5).out
      = [Event.config_forwarded config_status.WRITE_ERROR] ∧
    events (hidc_read_cfg sample_cfg sample_state 5 success_report).out
      = [Event.config_forwarded config_status.WRITE_ERROR] :=
  ⟨by decide, (transport_results_surfaced sample_cfg sample_state 5 success_report).1,
    (transport_results_surfaced sample_cfg sample_state 5 success_report).2.2.2.1 (by decide)⟩

/-- A `config_forward_event` handled with slot 0 ready, the config feature
report present and a payload of at most 255 bytes, in terms of the frame of
lines 406-417. -/
theorem config_forward_accepted (c : Cfg) (s : State) (event : config_forward_event) (env : Env)
    (hidc0 : bt_gatt_hids_c) (rep : rep_info)
    (hen : c.CONFIG_DESKTOP_CONFIG_CHANNEL_ENABLE = true)
    (hslot : s.hidc.head? = some hidc0) (hready : hidc0.ready = true)
    (hrep : bt_gatt_hids_c_rep_find hidc0 report_type.FEATURE c.REPORT_ID_USER_CONFIG = some rep)
    (hsize : event.dyndata.length ≤ 255) :
    event_handler c s (.config_forward event) env =
      if (c.config_channel_report_fill c.REPORT_SIZE_USER_CONFIG (forward_frame event)).1 < 0 then
        .ok ⟨s, (if event.status = config_status.FETCH
            then [Effect.log Log.forwarding_fetch_request] else [])
          ++ [Effect.log Log.could_not_set_report], true⟩
      else if env.rep_write_err ≠ 0 then
        .ok ⟨{ s with forward_pending := false },
          (if event.status = config_status.FETCH
            then [Effect.log Log.forwarding_fetch_request] else [])
          ++ [Effect.rep_write 0 rep Callback.hidc_write_cb
                (c.config_channel_report_fill c.REPORT_SIZE_USER_CONFIG (forward_frame event)).2
                c.REPORT_SIZE_USER_CONFIG,
              Effect.log (Log.writing_report_failed env.rep_write_err),
              Effect.submit (Event.config_forwarded config_status.WRITE_ERROR)], false⟩
      else
        .ok ⟨s, (if event.status = config_status.FETCH
            then [Effect.log Log.forwarding_fetch_request] else [])
          ++ [Effect.rep_write 0 rep Callback.hidc_write_cb
                (c.config_channel_report_fill c.REPORT_SIZE_USER_CONFIG (forward_frame event)).2
                c.REPORT_SIZE_USER_CONFIG], false⟩ := by
  have hsize' : ¬ 255 < event.dyndata.length := by omega
  simp only [event_handler, on_config_forward, hen, hslot, hready, hrep, hsize',
    bt_gatt_hids_c_ready_check, forward_frame, notify_config_forwarded, pure, Except.pure,
    if_true, gt_iff_lt, if_false, Bool.not_true, Bool.false_eq_true, decide_eq_true_eq]
  split_ifs <;> rfl

theorem log_prefix_silent (b : Prop) [Decidable b] (m : Log) :
    writes (if b then [Effect.log m] else []) = [] ∧
    reads (if b then [Effect.log m] else []) = [] ∧
    events (if b then [Effect.log m] else []) = [] := by
  split <;> exact ⟨rfl, rfl, rfl⟩

/-- C13 (the code departs from the claim). A `config_forward_event` with slot
0 ready, the config feature report present and a payload of at most 255 bytes:
the frame handed to `config_channel_report_fill` is `forward_frame event`; its
recipient, event id, payload length and payload are the request's, its status
is fetch for a fetch request and is never written otherwise.  When the encoder
fails nothing is written; when it succeeds exactly one write of the whole
`REPORT_SIZE_USER_CONFIG` buffer is issued to slot 0. -/
theorem forward_write_frame (c : Cfg) (s : State) (event : config_forward_event) (env : Env)
    (hidc0 : bt_gatt_hids_c) (rep : rep_info)
    (hen : c.CONFIG_DESKTOP_CONFIG_CHANNEL_ENABLE = true)
    (hslot : s.hidc.head? = some hidc0) (hready : hidc0.ready = true)
    (hrep : bt_gatt_hids_c_rep_find hidc0 report_type.FEATURE c.REPORT_ID_USER_CONFIG = some rep)
    (hsize : event.dyndata.length ≤ 255) :
    (forward_frame event).recipient = event.recipient ∧
    (forward_frame event).event_id = event.id ∧
    (forward_frame event).event_data_len = event.dyndata.length ∧
    (forward_frame event).event_data = event.dyndata ∧
    (event.status = config_status.FETCH →
      (forward_frame event).status = some config_status.FETCH) ∧
    (event.status ≠ config_status.FETCH → (forward_frame event).status = none) ∧
    ((c.config_channel_report_fill c.REPORT_SIZE_USER_CONFIG (forward_frame event)).1 < 0 →
      ∃ r, event_handler c s (.config_forward event) env = .ok r ∧
        writes r.out = [] ∧ reads r.out = [] ∧ events r.out = [] ∧ r.state = s) ∧
    (0 ≤ (c.config_channel_report_fill c.REPORT_SIZE_USER_CONFIG (forward_frame event)).1 →
      ∃ r, event_handler c s (.config_forward event) env = .ok r ∧
        writes r.out =
          [(0, rep, Callback.hidc_write_cb,
            (c.config_channel_report_fill c.REPORT_SIZE_USER_CONFIG (forward_frame event)).2,
            c.REPORT_SIZE_USER_CONFIG)] ∧
        reads r.out = []) := by
  refine ⟨rfl, rfl, rfl, rfl, ?_, ?_, ?_, ?_⟩
  · intro h; simp [forward_frame, h]
  · intro h; simp [forward_frame, h]
  · intro hneg
    refine ⟨_, (config_forward_accepted c s event env hidc0 rep hen hslot hready hrep hsize).trans
      (if_pos hneg), ?_, ?_, ?_, rfl⟩
    · simp [writes_append, (log_prefix_silent _ _).1, writes]
    · simp [reads_append, (log_prefix_silent _ _).2.1, reads]
    · simp [events_append, (log_prefix_silent _ _).2.2, events]
  · intro hpos
    have hpos' : ¬ (c.config_channel_report_fill c.REPORT_SIZE_USER_CONFIG
        (forward_frame event)).1 < 0 := by omega
    rw [config_forward_accepted c s event env hidc0 rep hen hslot hready hrep hsize,
      if_neg hpos']
    by_cases he : env.rep_write_err = 0
    · rw [if_neg (by simpa using he)]
      refine ⟨_, rfl, ?_, ?_⟩
      · simp [writes_append, (log_prefix_silent _ _).1, writes]
      · simp [reads_append, (log_prefix_silent _ _).2.1, reads]
    · rw [if_pos he]
      refine ⟨_, rfl, ?_, ?_⟩
      · simp [writes_append, (log_prefix_silent _ _).1, writes]
      · simp [reads_append, (log_prefix_silent _ _).2.1, reads]

/-- Witness for C13: a request that is not a fetch, on the sample state; the
status field of the frame handed to the encoder was never written. -/
theorem forward_write_frame_witness :
    sample_cfg.CONFIG_DESKTOP_CONFIG_CHANNEL_ENABLE = true ∧
    sample_state.hidc.head? =
      some ⟨3, true, [⟨1, report_type.INPUT⟩, ⟨5, report_type.FEATURE⟩]⟩ ∧
    bt_gatt_hids_c_rep_find ⟨3, true, [⟨1, report_type.INPUT⟩, ⟨5, report_type.FEATURE⟩]⟩
      report_type.FEATURE sample_cfg.REPORT_ID_USER_CONFIG = some ⟨5, report_type.FEATURE⟩ ∧
    set_request.dyndata.length ≤ 255 ∧
    set_request.status ≠ config_status.FETCH ∧
    0 ≤ (sample_cfg.config_channel_report_fill sample_cfg.REPORT_SIZE_USER_CONFIG
      (forward_frame set_request)).1 ∧
    (forward_frame set_request).status = none ∧
    ∃ r, event_handler sample_cfg sample_state (.config_forward set_request) ⟨0, 0, 0⟩ = .ok r ∧
      writes r.out =
        [(0, ⟨5, report_type.FEATURE⟩, Callback.hidc_write_cb,
          (sample_cfg.config_channel_report_fill sample_cfg.REPORT_SIZE_USER_CONFIG
            (forward_frame set_request)).2,
          sample_cfg.REPORT_SIZE_USER_CONFIG)] ∧
      reads r.out = [] :=
  ⟨rfl, rfl, rfl, by decide, by decide, by decide,
    (forward_write_frame sample_cfg sample_state set_request ⟨0, 0, 0⟩
      ⟨3, true, [⟨1, report_type.INPUT⟩, ⟨5, report_type.FEATURE⟩]⟩ ⟨5, report_type.FEATURE⟩
      rfl rfl rfl rfl (by decide)).2.2.2.2.2.1 (by decide),
    (forward_write_frame sample_cfg sample_state set_request ⟨0, 0, 0⟩
      ⟨3, true, [⟨1, report_type.INPUT⟩, ⟨5, report_type.FEATURE⟩]⟩ ⟨5, report_type.FEATURE⟩
      rfl rfl rfl rfl (by decide)).2.2.2.2.2.2.2 (by decide)⟩

/-! ## Device slots: release on disconnect, first free slot on discovery -/

theorem release_loop_slots (id : Nat) (l : List bt_gatt_hids_c) :
    ∀ k, (release_loop id k l).1 =
      l.map fun h =>
        if bt_gatt_hids_c_assign_check h && h.conn = id then bt_gatt_hids_c_release h else h := by
  induction l with
  | nil => intro k; rfl
  | cons h rest ih =>
    intro k
    simp only [release_loop, List.map_cons]
    split <;> simp [ih (k + 1)]

/-- C14. Disconnect releases exactly the slots of that connection: a peer
event with state disconnected and connection id `id` leaves every slot that
was assigned and bound to `id` unassigned and every other slot (unassigned, or
bound to another connection) unchanged; a peer event with any other state
changes no slot.  The number of slots and the rest of the state stay as they
were. -/
theorem disconnect_releases_bound_slots (c : Cfg) (s : State) (state : peer_state) (id : Nat)
    (env : Env) :
    ∃ r, event_handler c s (.ble_peer state id) env = .ok r ∧
      r.state.hidc.length = s.hidc.length ∧
      { r.state with hidc := s.hidc } = s ∧
      (state ≠ peer_state.DISCONNECTED → r.state = s) ∧
      (state = peer_state.DISCONNECTED → ∀ (i : Nat) (h : bt_gatt_hids_c), s.hidc[i]? = some h →
        ((bt_gatt_hids_c_assign_check h = true ∧ h.conn = id) →
          ∃ h1, r.state.hidc[i]? = some h1 ∧ bt_gatt_hids_c_assign_check h1 = false) ∧
        (¬ (bt_gatt_hids_c_assign_check h = true ∧ h.conn = id) →
          r.state.hidc[i]? = some h)) := by
  cases state with
  | other =>
    exact ⟨⟨s, [], false⟩, by simp [event_handler, pure, Except.pure], rfl, rfl,
      fun _ => rfl, fun h => by cases h⟩
  | DISCONNECTED =>
    refine ⟨⟨{ s with hidc := (release_loop id 0 s.hidc).1 }, (release_loop id 0 s.hidc).2, false⟩,
      by simp [event_handler, pure, Except.pure], ?_, rfl, fun h => absurd rfl h, ?_⟩
    · simp [release_loop_slots]
    · intro _ i h hi
      simp only [release_loop_slots, List.getElem?_map, hi, Option.map_some']
      constructor
      · rintro ⟨ha, hc⟩
        exact ⟨bt_gatt_hids_c_release h, by simp [ha, hc],
          by simp [bt_gatt_hids_c_release, bt_gatt_hids_c_assign_check]⟩
      · intro hn
        have : (bt_gatt_hids_c_assign_check h && decide (h.conn = id)) = false := by
          cases ha : bt_gatt_hids_c_assign_check h
          · rfl
          · simp only [Bool.true_and, decide_eq_false_iff_not]
            exact fun hc => hn ⟨ha, hc⟩
        simp [this]

/-- Witness for C14: slot 2 is bound to connection 5, slot 0 to another
connection, slot 1 is unassigned. -/
theorem disconnect_releases_bound_slots_witness :
    ∃ r,
      event_handler sample_cfg
          { sample_state with hidc := [⟨3, true, []⟩, ⟨0, false, []⟩, ⟨5, true, []⟩] }
          (.ble_peer peer_state.DISCONNECTED 5) ⟨0, 0, 0⟩ = .ok r ∧
      r.state.hidc = [⟨3, true, []⟩, ⟨0, false, []⟩, ⟨0, false, []⟩] ∧
      ∀ (i : Nat) (h : bt_gatt_hids_c),
        ({ sample_state with hidc := [⟨3, true, []⟩, ⟨0, false, []⟩, ⟨5, true, []⟩] }
          : State).hidc[i]? = some h →
        ((bt_gatt_hids_c_assign_check h = true ∧ h.conn = 5) →
          ∃ h1, r.state.hidc[i]? = some h1 ∧ bt_gatt_hids_c_assign_check h1 = false) ∧
        (¬ (bt_gatt_hids_c_assign_check h = true ∧ h.conn = 5) →
          r.state.hidc[i]? = some h) :=
  (disconnect_releases_bound_slots sample_cfg
    { sample_state with hidc := [⟨3, true, []⟩, ⟨0, false, []⟩, ⟨5, true, []⟩] }
    peer_state.DISCONNECTED 5 ⟨0, 0, 0⟩).elim fun r h =>
    ⟨r, h.1, by have := h.1; simp [event_handler, pure, Except.pure] at this; rw [← this]; rfl,
      h.2.2.2.2 rfl⟩

/-- The loop of `assign_handles` stops at the lowest-index unassigned slot
when there is one. -/
theorem assign_handles_loop_first_free (l : List bt_gatt_hids_c)
    (hfree : ∃ h ∈ l, bt_gatt_hids_c_assign_check h = false) :
    assign_handles_loop l < l.length ∧
    (∃ h, l[assign_handles_loop l]? = some h ∧ bt_gatt_hids_c_assign_check h = false) ∧
    ∀ (j : Nat) (hj : bt_gatt_hids_c), j < assign_handles_loop l → l[j]? = some hj →
      bt_gatt_hids_c_assign_check hj = true := by
  induction l with
  | nil => obtain ⟨h, hm, _⟩ := hfree; cases hm
  | cons x rest ih =>
    cases hx : bt_gatt_hids_c_assign_check x
    · refine ⟨by simp [assign_handles_loop, hx], ⟨x, by simp [assign_handles_loop, hx], hx⟩, ?_⟩
      intro j hj hlt
      simp [assign_handles_loop, hx] at hlt
    · have hfree1 : ∃ h ∈ rest, bt_gatt_hids_c_assign_check h = false := by
        obtain ⟨h, hm, hh⟩ := hfree
        rcases List.mem_cons.mp hm with rfl | hm
        · rw [hx] at hh; cases hh
        · exact ⟨h, hm, hh⟩
      obtain ⟨h1, ⟨h, h2, h3⟩, h4⟩ := ih hfree1
      have hloop : assign_handles_loop (x :: rest) = assign_handles_loop rest + 1 := by
        simp [assign_handles_loop, hx]
      refine ⟨by rw [hloop]; simpa using h1, ⟨h, by rw [hloop]; simpa using h2, h3⟩, ?_⟩
      intro j hj hlt hget
      cases j with
      | zero =>
        simp at hget
        rw [← hget]; exact hx
      | succ j =>
        rw [hloop] at hlt
        exact h4 j hj (by omega) (by simpa using hget)

/-- The value of `i` after the loop is the only index of an unassigned slot
below which every slot is assigned. -/
theorem assign_handles_loop_eq (l : List bt_gatt_hids_c) :
    ∀ (k : Nat) (h : bt_gatt_hids_c), l[k]? = some h → bt_gatt_hids_c_assign_check h = false →
      (∀ (j : Nat) (hj : bt_gatt_hids_c), j < k → l[j]? = some hj →
        bt_gatt_hids_c_assign_check hj = true) →
      assign_handles_loop l = k := by
  induction l with
  | nil => intro k h hk; simp at hk
  | cons x rest ih =>
    intro k h hk hfree hlow
    cases k with
    | zero =>
      simp at hk
      subst hk
      simp [assign_handles_loop, hfree]
    | succ k =>
      have hx : bt_gatt_hids_c_assign_check x = true := hlow 0 x (by omega) (by simp)
      have := ih k h (by simpa using hk) hfree
        (fun j hj hlt hget => hlow (j + 1) hj (by omega) (by simpa using hget))
      simp [assign_handles_loop, hx, this]

/-- The function `assign_handles` when the loop stops below the capacity. -/
theorem assign_handles_at (c : Cfg) (s : State) (dm : bt_gatt_dm) (err : Int)
    (hlt : assign_handles_loop s.hidc < s.hidc.length) :
    assign_handles c s dm err =
      .ok ⟨{ s with hidc := if err = 0
              then s.hidc.set (assign_handles_loop s.hidc) (bt_gatt_hids_c_assigned dm)
              else s.hidc },
        Effect.handles_assign dm (assign_handles_loop s.hidc) ::
          (if err ≠ 0 then [Effect.log (Log.cannot_assign_handles err)] else []), err⟩ := by
  simp [assign_handles, ASSERT, hlt, bind, Except.bind, pure, Except.pure]

theorem assigned_slots_assign (dm : bt_gatt_dm) (i : Nat) (err : Int) :
    assigned_slots (Effect.handles_assign dm i ::
      (if err ≠ 0 then [Effect.log (Log.cannot_assign_handles err)] else [])) = [i] := by
  split <;> rfl

theorem discovery_complete_at (c : Cfg) (s : State) (dm : bt_gatt_dm) (env : Env)
    (hlt : assign_handles_loop s.hidc < s.hidc.length) :
    ∃ r, event_handler c s (.ble_discovery_complete dm) env = .ok r ∧
      assign_handles c s dm env.handles_assign_err
        = .ok ⟨r.state, r.out, env.handles_assign_err⟩ ∧
      assigned_slots r.out = [assign_handles_loop s.hidc] := by
  have heq := assign_handles_at c s dm env.handles_assign_err hlt
  refine ⟨⟨_, _, false⟩, ?_, heq, assigned_slots_assign _ _ _⟩
  simp [event_handler, heq, bind, Except.bind, pure, Except.pure]

/-- C15. Discovery binds the first free slot: with at least one unassigned
slot, the discovery-complete handler returns, the index `assign_handles`
selects is below the slot capacity (so the assertion of line 206 holds and the
array access is in bounds), it is the lowest index of an unassigned slot, and
no other slot is passed to the handle assignment.  So a slot released by a
disconnect is selected by the next discovery-complete event when all
lower-index slots are assigned. -/
theorem discovery_binds_first_free (c : Cfg) (s : State) (dm : bt_gatt_dm) (env : Env) :
    ((∃ h ∈ s.hidc, bt_gatt_hids_c_assign_check h = false) →
      ∃ r i h,
        event_handler c s (.ble_discovery_complete dm) env = .ok r ∧
        assign_handles c s dm env.handles_assign_err
          = .ok ⟨r.state, r.out, env.handles_assign_err⟩ ∧
        i < s.hidc.length ∧ s.hidc[i]? = some h ∧ bt_gatt_hids_c_assign_check h = false ∧
        (∀ (j : Nat) (hj : bt_gatt_hids_c), j < i → s.hidc[j]? = some hj →
          bt_gatt_hids_c_assign_check hj = true) ∧
        assigned_slots r.out = [i]) ∧
    (∀ (id k : Nat) (hk : bt_gatt_hids_c), s.hidc[k]? = some hk →
      bt_gatt_hids_c_assign_check hk = true → hk.conn = id →
      (∀ (j : Nat) (hj : bt_gatt_hids_c), j < k → s.hidc[j]? = some hj →
        bt_gatt_hids_c_assign_check hj = true ∧ hj.conn ≠ id) →
      ∃ r1 r2,
        event_handler c s (.ble_peer peer_state.DISCONNECTED id) env = .ok r1 ∧
        event_handler c r1.state (.ble_discovery_complete dm) env = .ok r2 ∧
        assigned_slots r2.out = [k]) := by
  constructor
  · intro hfree
    obtain ⟨hlt, ⟨h, hget, hh⟩, hlow⟩ := assign_handles_loop_first_free s.hidc hfree
    obtain ⟨r, hr, heq, hslot⟩ := discovery_complete_at c s dm env hlt
    exact ⟨r, assign_handles_loop s.hidc, h, hr, heq, hlt, hget, hh, hlow, hslot⟩
  · intro id k hk hget hassigned hconn hlow
    have hslots := release_loop_slots id s.hidc 0
    have h1 : event_handler c s (.ble_peer peer_state.DISCONNECTED id) env =
        .ok ⟨{ s with hidc := (release_loop id 0 s.hidc).1 }, (release_loop id 0 s.hidc).2,
          false⟩ := by
      simp [event_handler, pure, Except.pure]
    have hk1 : (release_loop id 0 s.hidc).1[k]? = some (bt_gatt_hids_c_release hk) := by
      simp [hslots, List.getElem?_map, hget, hassigned, hconn]
    have hlow1 : ∀ (j : Nat) (hj : bt_gatt_hids_c), j < k →
        (release_loop id 0 s.hidc).1[j]? = some hj →
        bt_gatt_hids_c_assign_check hj = true := by
      intro j hj hlt hgetj
      rw [hslots, List.getElem?_map] at hgetj
      cases hs : s.hidc[j]? with
      | none => simp [hs] at hgetj
      | some h0 =>
        obtain ⟨ha, hc⟩ := hlow j h0 hlt hs
        simp [hs, ha, hc] at hgetj
        rw [← hgetj]; exact ha
    have hloop := assign_handles_loop_eq (release_loop id 0 s.hidc).1 k
      (bt_gatt_hids_c_release hk) hk1
      (by simp [bt_gatt_hids_c_release, bt_gatt_hids_c_assign_check]) hlow1
    have hlt : assign_handles_loop (release_loop id 0 s.hidc).1
        < (release_loop id 0 s.hidc).1.length := by
      rw [hloop]
      exact (List.getElem?_eq_some_iff.mp hk1).1
    obtain ⟨r2, hr2, _, hslot⟩ :=
      discovery_complete_at c { s with hidc := (release_loop id 0 s.hidc).1 } dm env hlt
    exact ⟨_, r2, h1, hr2, by rw [hslot, hloop]⟩

/-- Witness for C15: slots 0 and 1 are assigned, slot 2 is free; and slot 1,
bound to connection 5, is released and then selected. -/
theorem discovery_binds_first_free_witness :
    (∃ h ∈ ({ sample_state with hidc := [⟨3, true, []⟩, ⟨5, true, []⟩, ⟨0, false, []⟩] }
      : State).hidc, bt_gatt_hids_c_assign_check h = false) ∧
    (∃ r i h,
      event_handler sample_cfg
        { sample_state with hidc := [⟨3, true, []⟩, ⟨5, true, []⟩, ⟨0, false, []⟩] }
        (.ble_discovery_complete ⟨6, []⟩) ⟨0, 0, 0⟩ = .ok r ∧
      assign_handles sample_cfg
        { sample_state with hidc := [⟨3, true, []⟩, ⟨5, true, []⟩, ⟨0, false, []⟩] }
        ⟨6, []⟩ 0 = .ok ⟨r.state, r.out, 0⟩ ∧
      i < 3 ∧
      ({ sample_state with hidc := [⟨3, true, []⟩, ⟨5, true, []⟩, ⟨0, false, []⟩] }
        : State).hidc[i]? = some h ∧
      bt_gatt_hids_c_assign_check h = false ∧
      (∀ (j : Nat) (hj : bt_gatt_hids_c), j < i →
        ({ sample_state with hidc := [⟨3, true, []⟩, ⟨5, true, []⟩, ⟨0, false, []⟩] }
          : State).hidc[j]? = some hj → bt_gatt_hids_c_assign_check hj = true) ∧
      assigned_slots r.out = [i]) ∧
    ∃ r1 r2,
      event_handler sample_cfg
        { sample_state with hidc := [⟨3, true, []⟩, ⟨5, true, []⟩, ⟨0, false, []⟩] }
        (.ble_peer peer_state.DISCONNECTED 5) ⟨0, 0, 0⟩ = .ok r1 ∧
      event_handler sample_cfg r1.state (.ble_discovery_complete ⟨6, []⟩) ⟨0, 0, 0⟩ = .ok r2 ∧
      assigned_slots r2.out = [1] :=
  ⟨⟨⟨0, false, []⟩, by simp, rfl⟩,
    (discovery_binds_first_free sample_cfg
      { sample_state with hidc := [⟨3, true, []⟩, ⟨5, true, []⟩, ⟨0, false, []⟩] }
      ⟨6, []⟩ ⟨0, 0, 0⟩).1 ⟨⟨0, false, []⟩, by simp, rfl⟩,
    (discovery_binds_first_free sample_cfg
      { sample_state with hidc := [⟨3, true, []⟩, ⟨5, true, []⟩, ⟨0, false, []⟩] }
      ⟨6, []⟩ ⟨0, 0, 0⟩).2 5 1 ⟨5, true, []⟩ rfl rfl rfl
      (by
        intro j hj hlt hget
        have hj0 : j = 0 := by omega
        subst hj0
        simp at hget
        subst hget
        exact ⟨rfl, by decide⟩)⟩

/-! ## Subscriptions requested when a peripheral becomes ready -/

theorem hidc_ready_loop_subscriptions (slot : Nat) (subscribe_err : rep_info → Int)
    (reps : List rep_info) :
    subscriptions (hidc_ready_loop slot subscribe_err reps) =
      ((reps.find? fun r => decide (r.type = report_type.INPUT)).toList.map
        fun rep => (slot, rep, Callback.hidc_read)) := by
  induction reps with
  | nil => rfl
  | cons rep rest ih =>
    by_cases h : rep.type = report_type.INPUT
    · simp [hidc_ready_loop, h, subscriptions, List.find?]
    · simp [hidc_ready_loop, h, ih, List.find?]

/-- Counterexample for C16 as worded: a report list with two input reports;
`hidc_ready` subscribes to the first only, whether or not that subscription
fails. -/
theorem second_input_report_not_subscribed :
    (([⟨1, report_type.INPUT⟩, ⟨2, report_type.INPUT⟩, ⟨5, report_type.FEATURE⟩]
      : List rep_info).filter fun r => decide (r.type = report_type.INPUT))
      = [⟨1, report_type.INPUT⟩, ⟨2, report_type.INPUT⟩] ∧
    subscriptions (hidc_ready
      { sample_state with hidc := [⟨3, true,
        [⟨1, report_type.INPUT⟩, ⟨2, report_type.INPUT⟩, ⟨5, report_type.FEATURE⟩]⟩] }
      0 (fun _ => 0)).out = [(0, ⟨1, report_type.INPUT⟩, Callback.hidc_read)] ∧
    subscriptions (hidc_ready
      { sample_state with hidc := [⟨3, true,
        [⟨1, report_type.INPUT⟩, ⟨2, report_type.INPUT⟩, ⟨5, report_type.FEATURE⟩]⟩] }
      0 (fun _ => -5)).out = [(0, ⟨1, report_type.INPUT⟩, Callback.hidc_read)] ∧
    (0, (⟨2, report_type.INPUT⟩ : rep_info), Callback.hidc_read) ∉
      subscriptions (hidc_ready
        { sample_state with hidc := [⟨3, true,
          [⟨1, report_type.INPUT⟩, ⟨2, report_type.INPUT⟩, ⟨5, report_type.FEATURE⟩]⟩] }
        0 (fun _ => 0)).out :=
  ⟨rfl, rfl, rfl, by decide⟩

/-- C16 (as amended). When a peripheral's HID service becomes ready, a
subscription is requested for the first input-type report of its report list
and for no other report: `hidc_ready` calls subscribe exactly once, for the
first report whose type is input, when the list has one, and not at all
otherwise; it never subscribes to a report of another type; the outcome of the
subscription changes only the log line, and the state is left as it was. -/
theorem ready_subscribes_first_input (s : State) (slot : Nat) (subscribe_err : rep_info → Int) :
    subscriptions (hidc_ready s slot subscribe_err).out =
      (((s.hidc.getD slot ⟨0, false, []⟩).reps.find?
          fun r => decide (r.type = report_type.INPUT)).toList.map
        fun rep => (slot, rep, Callback.hidc_read)) ∧
    (subscriptions (hidc_ready s slot subscribe_err).out).length ≤ 1 ∧
    (∀ sub ∈ subscriptions (hidc_ready s slot subscribe_err).out,
      sub.2.1.type = report_type.INPUT) ∧
    ((∃ rep ∈ (s.hidc.getD slot ⟨0, false, []⟩).reps, rep.type = report_type.INPUT) →
      (subscriptions (hidc_ready s slot subscribe_err).out).length = 1) ∧
    subscriptions (hidc_ready s slot subscribe_err).out
      = subscriptions (hidc_ready s slot fun _ => 0).out ∧
    (hidc_ready s slot subscribe_err).state = s := by
  simp only [hidc_ready]
  generalize (s.hidc.getD slot ⟨0, false, []⟩).reps = reps
  have hsub := hidc_ready_loop_subscriptions slot subscribe_err reps
  have hsub0 := hidc_ready_loop_subscriptions slot (fun _ => 0) reps
  refine ⟨hsub, ?_, ?_, ?_, by rw [hsub, hsub0], trivial⟩
  · rw [hsub]
    cases (reps.find? fun r => decide (r.type = report_type.INPUT)) <;> simp
  · intro sub hmem
    rw [hsub] at hmem
    cases hf : (reps.find? fun r => decide (r.type = report_type.INPUT)) with
    | none => rw [hf] at hmem; simp at hmem
    | some rep =>
      rw [hf] at hmem
      simp only [Option.toList_some, List.map_cons, List.map_nil, List.mem_singleton] at hmem
      have := List.find?_some hf
      rw [hmem]
      simpa using this
  · rintro ⟨rep, hmem, htype⟩
    rw [hsub]
    cases hf : (reps.find? fun r => decide (r.type = report_type.INPUT)) with
    | none =>
      have := List.find?_eq_none.mp hf rep hmem
      simp [htype] at this
    | some rep => simp

/-- Witness for C16 (as amended): the list with two input reports, the
subscription failing with -5. -/
theorem ready_subscribes_first_input_witness :
    (∃ rep ∈ (({ sample_state with hidc := [⟨3, true,
        [⟨5, report_type.FEATURE⟩, ⟨1, report_type.INPUT⟩, ⟨2, report_type.INPUT⟩]⟩] }
        : State).hidc.getD 0 ⟨0, false, []⟩).reps, rep.type = report_type.INPUT) ∧
    (subscriptions (hidc_ready
      { sample_state with hidc := [⟨3, true,
        [⟨5, report_type.FEATURE⟩, ⟨1, report_type.INPUT⟩, ⟨2, report_type.INPUT⟩]⟩] }
      0 (fun _ => -5)).out).length = 1 :=
  ⟨⟨⟨1, report_type.INPUT⟩, by decide, rfl⟩,
    (ready_subscribes_first_input
      { sample_state with hidc := [⟨3, true,
        [⟨5, report_type.FEATURE⟩, ⟨1, report_type.INPUT⟩, ⟨2, report_type.INPUT⟩]⟩] }
      0 (fun _ => -5)).2.2.2.1 ⟨⟨1, report_type.INPUT⟩, by decide, rfl⟩⟩

/-! ## The second mouse report -/

/-- Counterexample for C17 as worded: on the sample state a first mouse report
is emitted at once and a second one arriving before any report-sent signal is
stored; the run produces no "Event override" warning. -/
theorem second_mouse_report_no_override :
    ∃ s out,
      relay_run sample_cfg sample_state [.mouse [1, 5, 0x10, 2, 0x30], .mouse [0, 1, 2, 0, 0]]
        = .ok (s, out) ∧
      out = [Effect.submit (Event.hid_mouse
        (mouse_report_event sample_cfg 7 [1, 5, 0x10, 2, 0x30]))] ∧
      s.next_mouse_event = some (mouse_report_event sample_cfg 7 [0, 1, 2, 0, 0]) ∧
      Effect.log Log.event_override ∉ out :=
  ⟨_, _, rfl, rfl, rfl, by decide⟩

/-- C17 (as amended). Second-report scenario: from a relay state with USB
ready, `usb_busy` false and nothing pending, a first mouse report is emitted
at once; a second mouse report arriving before any report-sent signal emits no
event and leaves the mouse slot holding the second report's values, without
the "Event override" warning, since the slot was empty; the warning is
produced when a third report arrives before the report-sent signal and
overwrites the pending values. -/
theorem second_mouse_report_pending (c : Cfg) (s : State) (d1 d2 d3 : List Nat)
    (hr : s.usb_ready = true) (hb : s.usb_busy = false) (hm : s.next_mouse_event = none) :
    relay_run c s [.mouse d1] =
      .ok ({ s with usb_busy := true },
        [Effect.submit (Event.hid_mouse (mouse_report_event c s.usb_id d1))]) ∧
    relay_run c s [.mouse d1, .mouse d2] =
      .ok ({ s with usb_busy := true,
                    next_mouse_event := some (mouse_report_event c s.usb_id d2) },
        [Effect.submit (Event.hid_mouse (mouse_report_event c s.usb_id d1))]) ∧
    relay_run c s [.mouse d1, .mouse d2, .mouse d3] =
      .ok ({ s with usb_busy := true,
                    next_mouse_event := some (mouse_report_event c s.usb_id d3) },
        [Effect.submit (Event.hid_mouse (mouse_report_event c s.usb_id d1)),
         Effect.log Log.event_override]) := by
  refine ⟨?_, ?_, ?_⟩ <;>
    simp [relay_run, relay_step, hidc_read, process_mouse_report, hr, hb, hm, ASSERT, bind,
      Except.bind, pure, Except.pure]

/-- Witness for C17 (as amended): the sample state and three reports. -/
theorem second_mouse_report_pending_witness :
    sample_state.usb_ready = true ∧ sample_state.usb_busy = false ∧
    sample_state.next_mouse_event = none ∧
    relay_run sample_cfg sample_state [.mouse [1, 5, 0x10, 2, 0x30], .mouse [0, 1, 2, 0, 0]] =
      .ok ({ sample_state with
              usb_busy := true,
              next_mouse_event := some (mouse_report_event sample_cfg sample_state.usb_id
                [0, 1, 2, 0, 0]) },
        [Effect.submit (Event.hid_mouse
          (mouse_report_event sample_cfg sample_state.usb_id [1, 5, 0x10, 2, 0x30]))]) :=
  ⟨rfl, rfl, rfl,
    (second_mouse_report_pending sample_cfg sample_state [1, 5, 0x10, 2, 0x30] [0, 1, 2, 0, 0]
      [2, 0, 0, 0, 0] rfl rfl rfl).2.1⟩

/-! ## Pending work implies busy -/

/-- With nothing pending while idle, a step of the relay core never stops at
an assertion. -/
theorem relay_step_no_assert (c : Cfg) (s : State) (i : RelayInput) (hi : idle_clean s) :
    relay_step c s i ≠ .error Fault.assert := by
  have hmouse : ∀ data, relay_step c s (.mouse data) ≠ .error Fault.assert := by
    intro data
    cases hr : s.usb_ready
    · rw [relay_step_not_ready c s _ hr (by simp)]; simp
    · rw [relay_step_mouse c s data hr hi]
      split <;> simp
  cases i with
  | mouse data => exact hmouse data
  | keyboard data ok =>
    by_cases heq : c.REPORT_ID_MOUSE = c.REPORT_ID_KEYBOARD_KEYS
    · rw [relay_step_keyboard_as_mouse c s data ok heq]
      exact hmouse data
    · cases hr : s.usb_ready
      · rw [relay_step_not_ready c s _ hr (by simp)]; simp
      · rw [relay_step_keyboard c s data ok heq hr]
        cases s.usb_busy <;> cases ok <;> simp
  | report_sent => rw [relay_step_report_sent]; simp

theorem relay_run_idle_clean (c : Cfg) (ins : List RelayInput) :
    ∀ s : State, idle_clean s →
      relay_run c s ins ≠ .error Fault.assert ∧
      ∀ s1 out, relay_run c s ins = .ok (s1, out) → idle_clean s1 := by
  induction ins with
  | nil =>
    intro s hi
    refine ⟨by simp [relay_run, pure, Except.pure], ?_⟩
    intro s1 out hrun
    simp only [relay_run, pure, Except.pure, Except.ok.injEq, Prod.mk.injEq] at hrun
    rw [← hrun.1]; exact hi
  | cons i rest ih =>
    intro s hi
    have hna := relay_step_no_assert c s i hi
    cases hstep : relay_step c s i with
    | error e =>
      refine ⟨?_, ?_⟩
      · simp only [relay_run, hstep, bind, Except.bind]
        intro h
        cases h
        exact hna hstep
      · intro s1 out hrun
        simp [relay_run, hstep, bind, Except.bind] at hrun
    | ok r1 =>
      have hi1 := (relay_step_flight c s i hi r1 hstep).1
      obtain ⟨h1, h2⟩ := ih r1.1 hi1
      cases hrest : relay_run c r1.1 rest with
      | error e =>
        refine ⟨?_, ?_⟩
        · simp only [relay_run, hstep, hrest, bind, Except.bind]
          intro h
          cases h
          exact h1 hrest
        · intro s1 out hrun
          simp [relay_run, hstep, hrest, bind, Except.bind] at hrun
      | ok r2 =>
        refine ⟨by simp [relay_run, hstep, hrest, bind, Except.bind, pure, Except.pure], ?_⟩
        intro s1 out hrun
        simp only [relay_run, hstep, hrest, bind, Except.bind, pure, Except.pure,
          Except.ok.injEq, Prod.mk.injEq] at hrun
        rw [← hrun.1]
        exact h2 r2.1 r2.2 hrest

/-- C18. Pending work implies busy: in every state reached from the initial
state by mouse reports, keyboard reports and report-sent signals, a non-empty
mouse slot implies `usb_busy` and a non-empty keyboard queue implies
`usb_busy`; no run stops at an assertion, so the assertion of line 67 never
fails; and a report that is emitted on arrival finds the queue and the slot
empty, so it overtakes no pending event.  A run returns whenever its
allocations succeed. -/
theorem pending_implies_busy (c : Cfg) (slots usb_id : Nat) (usb_ready : Bool)
    (ins : List RelayInput) :
    relay_run c { State.initial slots with usb_ready := usb_ready, usb_id := usb_id } ins
      ≠ .error Fault.assert ∧
    (allocations_succeed ins = true →
      ∃ r, relay_run c { State.initial slots with usb_ready := usb_ready, usb_id := usb_id } ins
        = .ok r) ∧
    ∀ s out,
      relay_run c { State.initial slots with usb_ready := usb_ready, usb_id := usb_id } ins
        = .ok (s, out) →
      (s.next_mouse_event ≠ none → s.usb_busy = true) ∧
      (s.keyboard_event_list ≠ [] → s.usb_busy = true) ∧
      (∀ i, relay_step c s i ≠ .error Fault.assert) ∧
      (∀ i r, i ≠ RelayInput.report_sent → relay_step c s i = .ok r → events r.2 ≠ [] →
        s.keyboard_event_list = [] ∧ s.next_mouse_event = none) := by
  have hclean : idle_clean
      { State.initial slots with usb_ready := usb_ready, usb_id := usb_id } :=
    fun _ => ⟨rfl, rfl⟩
  obtain ⟨h1, h2⟩ := relay_run_idle_clean c ins _ hclean
  refine ⟨h1, fun hok => relay_run_returns c ins _ hclean hok, ?_⟩
  intro s out hrun
  have hi : idle_clean s := h2 s out hrun
  refine ⟨?_, ?_, fun i => relay_step_no_assert c s i hi, ?_⟩
  · intro hne
    cases hb : s.usb_busy
    · exact absurd (hi hb).1 hne
    · rfl
  · intro hne
    cases hb : s.usb_busy
    · exact absurd (hi hb).2 hne
    · rfl
  · intro i r hne hstep hev
    have hflight := (relay_step_flight c s i hi r hstep).2.1 hne
    cases hb : s.usb_busy
    · exact ⟨(hi hb).2, (hi hb).1⟩
    · rw [hb] at hflight
      rw [if_pos rfl] at hflight
      have hle : (if r.1.usb_busy = true then 1 else 0) ≤ 1 := by split <;> omega
      have hlen : (events r.2).length = 0 := by omega
      exact absurd (List.length_eq_zero.mp hlen) hev

/-- Witness for C18: a run that leaves a keyboard event queued and a mouse
event pending. -/
theorem pending_implies_busy_witness :
    allocations_succeed
      [.mouse [1, 5, 0x10, 2, 0x30], .keyboard [2, 0, 4, 5, 6, 7, 8, 9] true,
       .mouse [0, 0, 1, 0, 0]] = true ∧
    ∃ r,
      relay_run sample_cfg { State.initial 2 with usb_ready := true, usb_id := 7 }
        [.mouse [1, 5, 0x10, 2, 0x30], .keyboard [2, 0, 4, 5, 6, 7, 8, 9] true,
         .mouse [0, 0, 1, 0, 0]] = .ok r :=
  ⟨by decide,
    (pending_implies_busy sample_cfg 2 7 true
      [.mouse [1, 5, 0x10, 2, 0x30], .keyboard [2, 0, 4, 5, 6, 7, 8, 9] true,
       .mouse [0, 0, 1, 0, 0]]).2.1 (by decide)⟩

/-! ## The forward-pending flag across writes and reads -/

/-- C19 (the code departs from the claim). On the sample state a `forward_get`
issues a read and sets `forward_pending`; a `forward_write` handled next
issues a write, and its completion `hidc_write_cb` with no error clears
`forward_pending` although the read has not completed; the `forward_get` that
follows issues a second read while the first is outstanding.  In the other
direction, the completion of the first read with a success frame leaves
`forward_pending` true although no read is outstanding any more. -/
theorem write_completion_clears_pending :
    ∃ r1 r2 r4,
      event_handler sample_cfg sample_state (.config_forward_get 11) ⟨0, 0, 0⟩ = .ok r1 ∧
      reads r1.out = [(0, ⟨5, report_type.FEATURE⟩, Callback.hidc_read_cfg)] ∧
      r1.state.forward_pending = true ∧
      event_handler sample_cfg r1.state (.config_forward set_request) ⟨0, 0, 0⟩ = .ok r2 ∧
      (writes r2.out).length = 1 ∧ reads r2.out = [] ∧
      r2.state.forward_pending = true ∧
      reads (hidc_write_cb r2.state 0).out = [] ∧
      (hidc_write_cb r2.state 0).state.forward_pending = false ∧
      event_handler sample_cfg (hidc_write_cb r2.state 0).state (.config_forward_get 12)
        ⟨0, 0, 0⟩ = .ok r4 ∧
      reads r4.out = [(0, ⟨5, report_type.FEATURE⟩, Callback.hidc_read_cfg)] ∧
      reads (r1.out ++ r2.out ++ (hidc_write_cb r2.state 0).out ++ r4.out) =
        [(0, ⟨5, report_type.FEATURE⟩, Callback.hidc_read_cfg),
         (0, ⟨5, report_type.FEATURE⟩, Callback.hidc_read_cfg)] ∧
      reads (hidc_read_cfg sample_cfg r1.state 0 success_report).out = [] ∧
      (hidc_read_cfg sample_cfg r1.state 0 success_report).state.forward_pending = true :=
  ⟨_, _, _, rfl, rfl, rfl, rfl, rfl, rfl, rfl, rfl, rfl, rfl, rfl, rfl, rfl, rfl⟩

/-! ## USB state and subscription events -/

/-- C20. USB state and subscription events touch only the sink identity and
readiness: a powered event sets `usb_id` to the event's id; a disconnected
event sets `usb_id` to `NULL` and `usb_ready` to false; any other USB state
changes nothing; a report-subscription event sets `usb_ready` to its enabled
flag when its subscriber equals `usb_id` and changes nothing otherwise.  None
of these events emits anything or changes `usb_busy`, the mouse slot or the
keyboard queue. -/
theorem usb_events_touch_sink_only (c : Cfg) (s : State) (env : Env) :
    (∀ id, event_handler c s (.usb_state_event usb_state.POWERED id) env =
      .ok ⟨{ s with usb_id := id }, [], false⟩) ∧
    (∀ id, event_handler c s (.usb_state_event usb_state.DISCONNECTED id) env =
      .ok ⟨{ s with usb_id := 0, usb_ready := false }, [], false⟩) ∧
    (∀ id, event_handler c s (.usb_state_event usb_state.other id) env = .ok ⟨s, [], false⟩) ∧
    (∀ subscriber enabled, subscriber = s.usb_id →
      event_handler c s (.hid_report_subscription subscriber enabled) env =
        .ok ⟨{ s with usb_ready := enabled }, [], false⟩) ∧
    (∀ subscriber enabled, subscriber ≠ s.usb_id →
      event_handler c s (.hid_report_subscription subscriber enabled) env =
        .ok ⟨s, [], false⟩) ∧
    (∀ eh, ((∃ state id, eh = event_header.usb_state_event state id) ∨
        (∃ subscriber enabled, eh = event_header.hid_report_subscription subscriber enabled)) →
      ∃ r, event_handler c s eh env = .ok r ∧ r.out = [] ∧
        r.state.usb_busy = s.usb_busy ∧
        r.state.next_mouse_event = s.next_mouse_event ∧
        r.state.keyboard_event_list = s.keyboard_event_list ∧
        r.state = { s with usb_id := r.state.usb_id, usb_ready := r.state.usb_ready }) := by
  have h1 : ∀ id, event_handler c s (.usb_state_event usb_state.POWERED id) env =
      .ok ⟨{ s with usb_id := id }, [], false⟩ := fun id => by
    simp [event_handler, pure, Except.pure]
  have h2 : ∀ id, event_handler c s (.usb_state_event usb_state.DISCONNECTED id) env =
      .ok ⟨{ s with usb_id := 0, usb_ready := false }, [], false⟩ := fun id => by
    simp [event_handler, pure, Except.pure]
  have h3 : ∀ id, event_handler c s (.usb_state_event usb_state.other id) env =
      .ok ⟨s, [], false⟩ := fun id => by
    simp [event_handler, pure, Except.pure]
  have h4 : ∀ subscriber enabled, subscriber = s.usb_id →
      event_handler c s (.hid_report_subscription subscriber enabled) env =
        .ok ⟨{ s with usb_ready := enabled }, [], false⟩ := fun sub en h => by
    simp [event_handler, h, pure, Except.pure]
  have h5 : ∀ subscriber enabled, subscriber ≠ s.usb_id →
      event_handler c s (.hid_report_subscription subscriber enabled) env =
        .ok ⟨s, [], false⟩ := fun sub en h => by
    simp [event_handler, h, pure, Except.pure]
  refine ⟨h1, h2, h3, h4, h5, ?_⟩
  rintro eh (⟨state, id, rfl⟩ | ⟨sub, en, rfl⟩)
  · cases state
    · exact ⟨_, h1 id, rfl, rfl, rfl, rfl, rfl⟩
    · exact ⟨_, h2 id, rfl, rfl, rfl, rfl, rfl⟩
    · exact ⟨_, h3 id, rfl, rfl, rfl, rfl, rfl⟩
  · by_cases h : sub = s.usb_id
    · exact ⟨_, h4 sub en h, rfl, rfl, rfl, rfl, rfl⟩
    · exact ⟨_, h5 sub en h, rfl, rfl, rfl, rfl, rfl⟩

/-- Witness for C20: a USB disconnect while a mouse event is pending and
`usb_busy` is true, and a subscription event of the current subscriber. -/
theorem usb_events_touch_sink_only_witness :
    (7 : Nat) = busy_state.usb_id ∧
    event_handler sample_cfg busy_state (.hid_report_subscription 7 false) ⟨0, 0, 0⟩ =
      .ok ⟨{ busy_state with usb_ready := false }, [], false⟩ ∧
    ∃ r,
      event_handler sample_cfg busy_state (.usb_state_event usb_state.DISCONNECTED 7) ⟨0, 0, 0⟩
        = .ok r ∧
      r.out = [] ∧ r.state.usb_busy = true ∧
      r.state.next_mouse_event = some ⟨7, 1, 0, 2, 3⟩ :=
  ⟨rfl,
    (usb_events_touch_sink_only sample_cfg busy_state ⟨0, 0, 0⟩).2.2.2.1 7 false rfl,
    ((usb_events_touch_sink_only sample_cfg busy_state ⟨0, 0, 0⟩).2.2.2.2.2
      (.usb_state_event usb_state.DISCONNECTED 7)
      (Or.inl ⟨usb_state.DISCONNECTED, 7, rfl⟩)).elim
      fun r h => ⟨r, h.1, h.2.1, h.2.2.1, h.2.2.2.1⟩⟩

/-! ## Draining the pending events -/

/-- A run of `n` report-sent signals, for `n` up to the number of pending
events: the first `n` pending events are emitted, keyboard first, and removed;
nothing else changes. -/
theorem relay_run_drain (c : Cfg) (n : Nat) :
    ∀ s : State, n ≤ s.keyboard_event_list.length + s.next_mouse_event.toList.length →
      relay_run c s (List.replicate n RelayInput.report_sent) =
        .ok ({ s with
                keyboard_event_list := s.keyboard_event_list.drop n
                next_mouse_event := if n ≤ s.keyboard_event_list.length
                  then s.next_mouse_event else none },
          (drain_effects s).take n) := by
  induction n with
  | zero => intro s _; simp [relay_run, pure, Except.pure]
  | succ n ih =>
    intro s hn
    rw [List.replicate_succ, relay_run, relay_step_report_sent]
    cases hq : s.keyboard_event_list with
    | cons evt rest =>
      have hstep : on_hid_report_sent s =
          ⟨{ s with keyboard_event_list := rest },
            [Effect.submit (Event.hid_keyboard evt)], false⟩ := by
        simp [on_hid_report_sent, hq]
      have hn1 : n ≤ rest.length + s.next_mouse_event.toList.length := by
        rw [hq] at hn; simp at hn; omega
      have hrest := ih { s with keyboard_event_list := rest } hn1
      simp only [hstep, bind, Except.bind, pure, Except.pure, hrest]
      simp [drain_effects, hq]
    | nil =>
      rw [hq] at hn
      cases hm : s.next_mouse_event with
      | none => rw [hm] at hn; simp at hn
      | some e =>
        have hn0 : n = 0 := by rw [hm] at hn; simp at hn; omega
        subst hn0
        have hstep : on_hid_report_sent s =
            ⟨{ s with next_mouse_event := none },
              [Effect.submit (Event.hid_mouse e)], false⟩ := by
          simp [on_hid_report_sent, hq, hm]
        simp [hstep, bind, Except.bind, pure, Except.pure, relay_run, drain_effects, hq, hm]

theorem relay_run_append (c : Cfg) (a b : List RelayInput) :
    ∀ (s s1 s2 : State) (o1 o2 : List Effect), relay_run c s a = .ok (s1, o1) →
      relay_run c s1 b = .ok (s2, o2) → relay_run c s (a ++ b) = .ok (s2, o1 ++ o2) := by
  induction a with
  | nil =>
    intro s s1 s2 o1 o2 h1 h2
    simp only [relay_run, pure, Except.pure, Except.ok.injEq, Prod.mk.injEq] at h1
    obtain ⟨rfl, rfl⟩ := h1
    simpa using h2
  | cons i rest ih =>
    intro s s1 s2 o1 o2 h1 h2
    rw [relay_run] at h1
    cases hstep : relay_step c s i with
    | error e => simp [hstep, bind, Except.bind] at h1
    | ok r1 =>
      cases hrest : relay_run c r1.1 rest with
      | error e => simp [hstep, hrest, bind, Except.bind] at h1
      | ok r2 =>
        simp only [hstep, hrest, bind, Except.bind, pure, Except.pure, Except.ok.injEq,
          Prod.mk.injEq] at h1
        obtain ⟨rfl, rfl⟩ := h1
        have := ih r1.1 r2.1 s2 r2.2 o2 hrest h2
        simp [relay_run, hstep, this, bind, Except.bind, pure, Except.pure]

/-- C21. Bounded drain: from every state with `usb_busy` true, `k` queued
keyboard events and `m` pending mouse events (`m` is 0 or 1), a run of
`k + m + 1` report-sent signals with no report in between emits exactly the
`k` keyboard events in queue order followed by the `m` mouse events, and ends
with `usb_busy` false, an empty keyboard queue and an empty mouse slot, the
rest of the state as it was; a run of `n ≤ k + m` signals emits the first `n`
of these events and leaves `usb_busy` true. -/
theorem bounded_drain (c : Cfg) (s : State) (hb : s.usb_busy = true) :
    s.next_mouse_event.toList.length ≤ 1 ∧
    relay_run c s (List.replicate
        (s.keyboard_event_list.length + s.next_mouse_event.toList.length + 1)
        RelayInput.report_sent) =
      .ok ({ s with usb_busy := false, keyboard_event_list := [], next_mouse_event := none },
        drain_effects s) ∧
    events (drain_effects s) =
      s.keyboard_event_list.map Event.hid_keyboard
        ++ s.next_mouse_event.toList.map Event.hid_mouse ∧
    ∀ n, n ≤ s.keyboard_event_list.length + s.next_mouse_event.toList.length →
      ∃ s1 out, relay_run c s (List.replicate n RelayInput.report_sent) = .ok (s1, out) ∧
        out = (drain_effects s).take n ∧ s1.usb_busy = true := by
  have hlen : (drain_effects s).length
      = s.keyboard_event_list.length + s.next_mouse_event.toList.length := by
    simp [drain_effects]
  refine ⟨by cases s.next_mouse_event <;> simp, ?_, ?_, ?_⟩
  · have hall := relay_run_drain c
      (s.keyboard_event_list.length + s.next_mouse_event.toList.length) s (le_refl _)
    have hd : s.keyboard_event_list.drop
        (s.keyboard_event_list.length + s.next_mouse_event.toList.length) = [] :=
      List.drop_eq_nil_of_le (Nat.le_add_right _ _)
    have hmn : (if s.keyboard_event_list.length + s.next_mouse_event.toList.length
          ≤ s.keyboard_event_list.length
        then s.next_mouse_event else none) = none := by
      cases s.next_mouse_event <;> simp
    rw [hd, hmn] at hall
    have hlast : relay_run c { s with keyboard_event_list := [], next_mouse_event := none }
        [RelayInput.report_sent] =
        .ok ({ s with usb_busy := false, keyboard_event_list := [],
                      next_mouse_event := none }, []) := by
      simp [relay_run, relay_step_report_sent, on_hid_report_sent, bind, Except.bind, pure,
        Except.pure]
    have := relay_run_append c _ _ _ _ _ _ _ hall hlast
    rw [List.replicate_succ', this, List.append_nil, ← hlen, List.take_length]
  · simp only [drain_effects, events_append]
    congr 1
    · induction s.keyboard_event_list with
      | nil => rfl
      | cons e rest ih => simp [events, ih]
    · cases s.next_mouse_event <;> simp [events]
  · intro n hn
    exact ⟨_, _, relay_run_drain c n s hn, rfl, hb⟩

/-- Witness for C21: two keyboard events queued and a mouse event pending;
four signals drain them in order and clear `usb_busy`. -/
theorem bounded_drain_witness :
    loaded_state.usb_busy = true ∧
    relay_run sample_cfg loaded_state
        (List.replicate
          (loaded_state.keyboard_event_list.length
            + loaded_state.next_mouse_event.toList.length + 1)
          RelayInput.report_sent) =
      .ok ({ loaded_state with
              usb_busy := false, keyboard_event_list := [], next_mouse_event := none },
        drain_effects loaded_state) ∧
    events (drain_effects loaded_state) =
      [Event.hid_keyboard ⟨7, 2, [4, 0, 0, 0, 0, 0]⟩,
       Event.hid_keyboard ⟨7, 0, [0, 0, 0, 0, 0, 0]⟩,
       Event.hid_mouse ⟨7, 1, 0, 2, 3⟩] :=
  ⟨rfl, (bounded_drain sample_cfg loaded_state rfl).2.1, rfl⟩

end HidForward
